import Mathlib

/-!
Verification development for the OCPP 2.0.1 Device Model Variable Manager of the
e-mobility charging-stations simulator.  The manager itself
(`OCPP20VariableManager`: `getVariables`, `setVariables`,
`validatePersistentMappings`, `getVariable`, `setVariable`,
`resolveVariableValue`, `isComponentValid`, `isVariableSupported`,
`rejectGet`, `rejectSet`) is translated from the TypeScript source.  The
helper modules it imports (the variable registry, the configuration-key
utilities and the protocol constants) are not part of the provided sources;
those definitions are modelled from the specification and are marked as such
in their doc comments.
-/

/-- Attribute kinds of a variable (closed enumeration from the OCPP 2.0.1 types). -/
inductive AttributeEnumType where
  | Actual
  | Target
  | MinSet
  | MaxSet
deriving DecidableEq, Repr

/-- Mutability classes of a variable. -/
inductive MutabilityEnumType where
  | ReadOnly
  | ReadWrite
  | WriteOnly
deriving DecidableEq, Repr

/-- Persistence classes of a variable. -/
inductive PersistenceEnumType where
  | Persistent
  | Volatile
deriving DecidableEq, Repr

/-- Data types of a variable (closed enumeration from the OCPP 2.0.1 types). -/
inductive DataEnumType where
  | string
  | integer
  | decimal
  | boolean
  | dateTime
  | OptionList
  | SequenceList
  | MemberList
deriving DecidableEq, Repr

/-- Status of a GetVariables item result. -/
inductive GetVariableStatusEnumType where
  | Accepted
  | Rejected
  | UnknownComponent
  | UnknownVariable
  | NotSupportedAttributeType
deriving DecidableEq, Repr

/-- Status of a SetVariables item result. -/
inductive SetVariableStatusEnumType where
  | Accepted
  | Rejected
  | UnknownComponent
  | UnknownVariable
  | NotSupportedAttributeType
  | RebootRequired
deriving DecidableEq, Repr

/-- Reason codes of the rejection taxonomy (closed set from the spec, section 4.4). -/
inductive ReasonCodeEnumType where
  | InvalidValue
  | ValueTooLow
  | ValueTooHigh
  | UnsupportedParam
  | ReadOnly
  | WriteOnly
  | NotFound
  | TooLargeElement
  | InternalError
  | NoError
deriving DecidableEq, Repr

/-- Rendering of an attribute kind, used in rejection info strings. -/
def AttributeEnumType.toStr : AttributeEnumType → String
  | .Actual => "Actual"
  | .Target => "Target"
  | .MinSet => "MinSet"
  | .MaxSet => "MaxSet"

/-- A protocol component reference: a name and an optional instance. -/
structure ComponentType where
  name : String
  inst : Option String := none
deriving DecidableEq, Repr

/-- A protocol variable reference: a name and an optional instance. -/
structure VariableType where
  name : String
  inst : Option String := none
deriving DecidableEq, Repr

/-- A configuration key entry owned by the station
(`{ key, value, readonly, visible?, reboot? }` per the spec's data model). -/
structure ConfigurationKey where
  key : String
  value : String
  readonly : Bool := false
  visible : Option Bool := none
  reboot : Option Bool := none
deriving DecidableEq, Repr

/-- The station context consumed by the manager: the persistent
ConfigurationKey Store plus the live runtime parameters used by the
well-known fallbacks (heartbeat interval in milliseconds, WebSocket ping
interval in seconds). -/
structure ChargingStation where
  configurationKeys : List ConfigurationKey
  heartbeatIntervalMs : Nat := 60000
  webSocketPingInterval : Nat := 0
deriving DecidableEq, Repr

/-- Lower-casing of a string, code point by code point (the embedding's
`toLowerCase`). -/
def lowerStr (s : String) : String :=
  String.mk (s.data.map Char.toLower)

/-- Modelled from the spec: the ConfigurationKey Store lookup
`get(station, keyName)` of `ConfigurationKeyUtils` (missing from the
sources).  Key lookup is case-insensitive; storage preserves casing. -/
def getConfigurationKey (keys : List ConfigurationKey) (name : String) :
    Option ConfigurationKey :=
  keys.find? (fun k => lowerStr k.key == lowerStr name)

/-- Modelled from the spec: the ConfigurationKey Store insertion
`add(station, keyName, value, opts, \x7b overwrite \x7d)` of
`ConfigurationKeyUtils` (missing from the sources), at the only option
combination the manager uses (`overwrite: false`, default options): a key
already present (case-insensitively) is left untouched, otherwise the entry
is appended with the given casing. -/
def addConfigurationKey (keys : List ConfigurationKey) (name value : String) :
    List ConfigurationKey :=
  match getConfigurationKey keys name with
  | some _ => keys
  | none => keys ++ [{ key := name, value := value }]

/-- Modelled from the spec: the ConfigurationKey Store update
`setValue(station, keyName, value)` of `ConfigurationKeyUtils` (missing from
the sources): the value of every case-insensitively matching entry is
replaced, casing of the stored key is preserved. -/
def setConfigurationKeyValue (keys : List ConfigurationKey) (name value : String) :
    List ConfigurationKey :=
  keys.map (fun k => if lowerStr k.key == lowerStr name then { k with value := value } else k)

/-- Metadata of a registry entry.  The fields are the ones the spec's data
model lists for `VariableMetadata`; `resolveHook` and `postProcessHook` model
the optional `resolve(station)` and `postProcess(station, raw)` hooks, and
`patternCheck` models the optional regex `pattern` of string variables. -/
structure VariableMetadata where
  component : String
  var : String
  inst : Option String := none
  dataType : DataEnumType
  mutability : MutabilityEnumType
  persistence : PersistenceEnumType
  supportedAttributes : List AttributeEnumType
  supportsMonitoring : Bool := false
  defaultValue : Option String := none
  min : Option Int := none
  max : Option Int := none
  enumValues : List String := []
  patternCheck : Option (String → Bool) := none
  resolveHook : Option (ChargingStation → String) := none
  postProcessHook : Option (ChargingStation → String → String) := none
  rebootRequired : Bool := false
  supportsTarget : Bool := false

/-- The variable registry: the iteration order of `VARIABLE_REGISTRY` is the
list order. -/
abbrev Registry : Type := List VariableMetadata

/-- Modelled from the spec: `getVariableMetadata(componentName, variableName,
instance?)` of `OCPP20VariableRegistry` (missing from the sources): exact
lookup of a `(component, variable, instance)` tuple, names compared
case-insensitively (spec invariant 8), instances compared exactly. -/
def getVariableMetadata (reg : Registry) (componentName variableName : String)
    (inst : Option String) : Option VariableMetadata :=
  List.find? (fun md => lowerStr md.component == lowerStr componentName &&
    lowerStr md.var == lowerStr variableName && md.inst == inst) reg

/-- Modelled from the spec: `buildCaseInsensitiveCompositeKey` of
`OCPP20VariableRegistry` (missing from the sources): the lower-case
concatenation `component[.componentInstance]/variable`. -/
def buildCaseInsensitiveCompositeKey (component : String) (inst : Option String)
    (variableName : String) : String :=
  lowerStr (match inst with
   | some i => component ++ "." ++ i
   | none => component) ++ "/" ++ lowerStr variableName

/-- Truncation of a string to a number of Unicode code points (the protocol's
string length). -/
def takeCodePoints (s : String) (n : Nat) : String :=
  String.mk (s.data.take n)

/-- Parse of a non-empty all-digit character list as a natural number. -/
def parseDigits (cs : List Char) : Option Nat :=
  if !cs.isEmpty && cs.all Char.isDigit then
    some (cs.foldl (fun acc c => acc * 10 + (c.toNat - 48)) 0)
  else none

/-- Modelled from the spec: `convertToIntOrNaN` of the utils (missing from
the sources): conversion of a signed decimal string to an integer, `none`
standing for `NaN`. -/
def convertToIntOrNaN (s : String) : Option Int :=
  match s.data with
  | '-' :: rest => (parseDigits rest).map (fun n => -(n : Int))
  | cs => (parseDigits cs).map (fun n => (n : Int))

/-- Modelled from the spec: `Constants.OCPP_VALUE_ABSOLUTE_MAX_LENGTH`
(missing from the sources), the protocol absolute cap on variable value
length (OCPP 2.0.1 maxLength, 2500). -/
def OCPP_VALUE_ABSOLUTE_MAX_LENGTH : Nat := 2500

/-- Modelled from the spec: `Constants.DEFAULT_TX_UPDATED_INTERVAL` (missing
from the sources), the fallback for `TxUpdatedInterval` in seconds. -/
def DEFAULT_TX_UPDATED_INTERVAL : Nat := 60

/-- Modelled from the spec: `enforceReportingValueSize(value, limit)` of
`OCPP20VariableRegistry` (missing from the sources): truncation by Unicode
code-point count; a limit that is not a positive integer is a no-op. -/
def enforceReportingValueSize (value : String) (limit : String) : String :=
  match convertToIntOrNaN limit with
  | some i => if 0 < i then takeCodePoints value i.toNat else value
  | none => value

/-- Modelled from the spec: `resolveValue(station, metadata)` of
`OCPP20VariableRegistry` (missing from the sources): the output of the
`resolve(station)` hook if present, else the metadata default if any, else
the empty string. -/
def resolveValue (cs : ChargingStation) (md : VariableMetadata) : String :=
  match md.resolveHook with
  | some f => f cs
  | none =>
    match md.defaultValue with
    | some d => d
    | none => ""

/-- Modelled from the spec: `applyPostProcess(station, metadata, raw)` of
`OCPP20VariableRegistry` (missing from the sources): the `postProcess` hook
applied when present, the identity otherwise. -/
def applyPostProcess (cs : ChargingStation) (md : VariableMetadata) (raw : String) : String :=
  match md.postProcessHook with
  | some f => f cs raw
  | none => raw

/-- Split of a character list on a separator (the embedding's `split`). -/
def splitCharsOn (sep : Char) : List Char → List (List Char)
  | [] => [[]]
  | c :: cs =>
    let rest := splitCharsOn sep cs
    if c == sep then [] :: rest
    else
      match rest with
      | r :: rs => (c :: r) :: rs
      | [] => [[c]]

/-- The signed-integer format of the validator (`-?` then digits). -/
def isSignedIntegerString (s : String) : Bool :=
  match s.data with
  | [] => false
  | c :: cs =>
    if c == '-' then !cs.isEmpty && cs.all Char.isDigit
    else (c :: cs).all Char.isDigit

/-- The decimal format the validator singles out (digits, a dot, digits,
optional leading minus). -/
def isDecimalString (s : String) : Bool :=
  match splitCharsOn '.' s.data with
  | [a, b] => isSignedIntegerString (String.mk a) && !b.isEmpty && b.all Char.isDigit
  | _ => false

/-- Modelled from the spec: a shallow ISO-8601 instant shape check standing
for the validator's `dateTime` parse (missing from the sources; no claim
depends on its exact acceptance set): `YYYY-MM-DD` optionally followed by a
`T...` time part. -/
def isIso8601String (s : String) : Bool :=
  let cs := s.data
  decide (10 ≤ cs.length) &&
  (cs.take 4).all Char.isDigit &&
  (cs.drop 4).take 1 == ['-'] &&
  ((cs.drop 5).take 2).all Char.isDigit &&
  (cs.drop 7).take 1 == ['-'] &&
  ((cs.drop 8).take 2).all Char.isDigit &&
  (cs.length == 10 || (cs.drop 10).take 1 == ['T'])

/-- Result of the validator: `\x7b ok, reasonCode?, info? \x7d`. -/
structure ValidationResult where
  ok : Bool
  reason : Option ReasonCodeEnumType := none
  info : Option String := none

/-- Tokens of a comma-separated list value. -/
def splitCommaList (s : String) : List String :=
  (splitCharsOn ',' s.data).map String.mk

/-- Modelled from the spec: `validateValue(metadata, value)` of
`OCPP20VariableRegistry` (missing from the sources), per data type exactly
as section 4.4 describes: integer format with a distinct decimal rejection
and bounds checks, decimal parse, boolean literals, ISO-8601 instants,
enumeration membership for `OptionList`, ordered duplicate-free membership
for `SequenceList`, duplicate-free membership for `MemberList`, optional
pattern for `string`. -/
def validateValue (md : VariableMetadata) (value : String) : ValidationResult :=
  match md.dataType with
  | .integer =>
    if !isSignedIntegerString value then
      if isDecimalString value then
        { ok := false, reason := some .InvalidValue,
          info := some ("Value for " ++ md.var ++ " must not be decimal") }
      else
        { ok := false, reason := some .InvalidValue,
          info := some ("Value for " ++ md.var ++ " must be an integer") }
    else
      match convertToIntOrNaN value with
      | none =>
        { ok := false, reason := some .InvalidValue,
          info := some ("Value for " ++ md.var ++ " must be an integer") }
      | some i =>
        if (match md.min with | some m => decide (i < m) | none => false) then
          { ok := false, reason := some .ValueTooLow,
            info := some ("Value for " ++ md.var ++ " is below minimum") }
        else if (match md.max with | some m => decide (m < i) | none => false) then
          { ok := false, reason := some .ValueTooHigh,
            info := some ("Value for " ++ md.var ++ " is above maximum") }
        else { ok := true }
  | .decimal =>
    if isSignedIntegerString value || isDecimalString value then { ok := true }
    else
      { ok := false, reason := some .InvalidValue,
        info := some ("Value for " ++ md.var ++ " must be a number") }
  | .boolean =>
    if value == "true" || value == "false" then { ok := true }
    else
      { ok := false, reason := some .InvalidValue,
        info := some ("Value for " ++ md.var ++ " must be true or false") }
  | .dateTime =>
    if isIso8601String value then { ok := true }
    else
      { ok := false, reason := some .InvalidValue,
        info := some ("Value for " ++ md.var ++ " must be an ISO-8601 date") }
  | .OptionList =>
    if md.enumValues.contains value then { ok := true }
    else
      { ok := false, reason := some .InvalidValue,
        info := some ("Value for " ++ md.var ++ " is not an allowed option") }
  | .SequenceList =>
    let tokens := splitCommaList value
    if tokens.all md.enumValues.contains && decide tokens.Nodup then { ok := true }
    else
      { ok := false, reason := some .InvalidValue,
        info := some ("Value for " ++ md.var ++ " is not an allowed sequence") }
  | .MemberList =>
    let tokens := splitCommaList value
    if tokens.all md.enumValues.contains && decide tokens.Nodup then { ok := true }
    else
      { ok := false, reason := some .InvalidValue,
        info := some ("Value for " ++ md.var ++ " is not an allowed member list") }
  | .string =>
    match md.patternCheck with
    | some p =>
      if p value then { ok := true }
      else
        { ok := false, reason := some .InvalidValue,
          info := some ("Value for " ++ md.var ++ " does not match pattern") }
    | none => { ok := true }

/-- The Variable Manager state: the startup self-check set and the three
override maps, all keyed by lower-case composite keys.  `invalidVariables`
models the `Set`, the others model `Map`s as association lists. -/
structure MgrState where
  invalidVariables : List String := []
  minSetOverrides : List (String × String) := []
  maxSetOverrides : List (String × String) := []
  runtimeOverrides : List (String × String) := []
deriving DecidableEq, Repr

/-- Map update (`Map.set`): remove any earlier binding and append the new one. -/
def setAssoc (m : List (String × String)) (k v : String) : List (String × String) :=
  m.filter (fun p => !(p.1 == k)) ++ [(k, v)]

/-- Set insertion (`Set.add`): append unless already present. -/
def addToSet (l : List String) (k : String) : List String :=
  if l.contains k then l else l ++ [k]

/-- Set removal (`Set.delete`): drop the element. -/
def removeFromSet (l : List String) (k : String) : List String :=
  l.filter (fun x => !(x == k))

/-- The `a ?? b` operator on optionals. -/
def orElseOpt {α : Type} (a b : Option α) : Option α :=
  match a with
  | some x => some x
  | none => b

/-- A GetVariables request item. -/
structure GetVariableData where
  attributeType : Option AttributeEnumType := none
  component : ComponentType
  var : VariableType
deriving DecidableEq, Repr

/-- A SetVariables request item. -/
structure SetVariableData where
  attributeType : Option AttributeEnumType := none
  attributeValue : String
  component : ComponentType
  var : VariableType
deriving DecidableEq, Repr

/-- Status info attached to a result. -/
structure StatusInfoType where
  additionalInfo : String
  reasonCode : ReasonCodeEnumType
deriving DecidableEq, Repr

/-- A GetVariables item result.  `attributeType` is optional because the
internal-error path of `getVariables` echoes the request's possibly-missing
attribute type verbatim. -/
structure GetVariableResult where
  attributeStatus : GetVariableStatusEnumType
  attributeStatusInfo : Option StatusInfoType := none
  attributeType : Option AttributeEnumType := none
  attributeValue : Option String := none
  component : ComponentType
  var : VariableType
deriving DecidableEq, Repr

/-- A SetVariables item result. -/
structure SetVariableResult where
  attributeStatus : SetVariableStatusEnumType
  attributeStatusInfo : Option StatusInfoType := none
  attributeType : AttributeEnumType
  component : ComponentType
  var : VariableType
deriving DecidableEq, Repr

/-- Truncation of rejection info strings to 50 characters. -/
def truncateInfo (s : String) : String :=
  if s.length > 50 then takeCodePoints s 50 else s

/-- `rejectGet` of the manager: a rejection result with truncated info and
the attribute type defaulted to `Actual`. -/
def rejectGet (v : VariableType) (c : ComponentType) (attributeType : Option AttributeEnumType)
    (status : GetVariableStatusEnumType) (reason : ReasonCodeEnumType) (info : String) :
    GetVariableResult :=
  { attributeStatus := status,
    attributeStatusInfo := some { additionalInfo := truncateInfo info, reasonCode := reason },
    attributeType := some (attributeType.getD .Actual),
    attributeValue := none,
    component := c, var := v }

/-- `rejectSet` of the manager: a rejection result with truncated info. -/
def rejectSet (v : VariableType) (c : ComponentType) (attributeType : AttributeEnumType)
    (status : SetVariableStatusEnumType) (reason : ReasonCodeEnumType) (info : String) :
    SetVariableResult :=
  { attributeStatus := status,
    attributeStatusInfo := some { additionalInfo := truncateInfo info, reasonCode := reason },
    attributeType := attributeType,
    component := c, var := v }

/-- `isComponentValid` of the manager: exact membership of the component
name in the supported component set. -/
def isComponentValid (c : ComponentType) : Bool :=
  ["AuthCtrlr", "ChargingStation", "ClockCtrlr", "DeviceDataCtrlr",
   "OCPPCommCtrlr", "SampledDataCtrlr", "SecurityCtrlr", "TxCtrlr"].contains c.name

/-- `isVariableSupported` of the manager: a registry hit with the requested
instance, or an instance-agnostic second attempt. -/
def isVariableSupported (reg : Registry) (c : ComponentType) (v : VariableType) : Bool :=
  (getVariableMetadata reg c.name v.name (orElseOpt v.inst c.inst)).isSome ||
  (getVariableMetadata reg c.name v.name none).isSome

/-- `shouldFlattenInstance` of the manager: the registry-defined
instance-flattening exception. -/
def shouldFlattenInstance (md : VariableMetadata) : Bool :=
  md.var == "MessageAttemptInterval"

/-- `computeConfigurationKeyName` of the manager: `variable.instance` unless
the instance is absent or flattened. -/
def computeConfigurationKeyName (md : VariableMetadata) : String :=
  match md.inst with
  | some i => if shouldFlattenInstance md then md.var else md.var ++ "." ++ i
  | none => md.var

/-- The composite key of the `DeviceDataCtrlr` `ConfigurationValueSize`
variable. -/
def configurationValueSizeKey : String :=
  buildCaseInsensitiveCompositeKey "DeviceDataCtrlr" none "ConfigurationValueSize"

/-- The composite key of the `DeviceDataCtrlr` `ValueSize` variable. -/
def valueSizeKey : String :=
  buildCaseInsensitiveCompositeKey "DeviceDataCtrlr" none "ValueSize"

/-- The composite key of the `DeviceDataCtrlr` `ReportingValueSize`
variable. -/
def reportingValueSizeKey : String :=
  buildCaseInsensitiveCompositeKey "DeviceDataCtrlr" none "ReportingValueSize"

/-- `resolveVariableValue` of the manager: hook value first, then for
persistent non-write-only entries the store (with an insert of the resolved
value when the key is missing, then a read back), then for volatile
non-read-only entries the runtime override, then the well-known live
fallbacks, finally the post-process hook; the possibly-extended station is
returned alongside the value. -/
def resolveVariableValue (reg : Registry) (mgr : MgrState) (cs : ChargingStation)
    (c : ComponentType) (v : VariableType) : String × ChargingStation :=
  match getVariableMetadata reg c.name v.name (orElseOpt v.inst c.inst) with
  | none => ("", cs)
  | some md =>
    let compositeKey := buildCaseInsensitiveCompositeKey c.name c.inst v.name
    let v0 := resolveValue cs md
    let step1 : String × ChargingStation :=
      if md.persistence == .Persistent && !(md.mutability == .WriteOnly) then
        let keyName := computeConfigurationKeyName md
        let keys1 :=
          match getConfigurationKey cs.configurationKeys keyName with
          | none => addConfigurationKey cs.configurationKeys keyName v0
          | some _ => cs.configurationKeys
        let value1 :=
          match getConfigurationKey keys1 keyName with
          | some k => if !(k.value == "") then k.value else v0
          | none => v0
        (value1, { cs with configurationKeys := keys1 })
      else (v0, cs)
    let v1 := step1.1
    let cs1 := step1.2
    let v2 :=
      if md.persistence == .Volatile && !(md.mutability == .ReadOnly) then
        match mgr.runtimeOverrides.lookup compositeKey with
        | some o => o
        | none => v1
      else v1
    let v3 :=
      if md.var == "HeartbeatInterval" && v2 == "" then
        toString (cs1.heartbeatIntervalMs / 1000)
      else v2
    let v4 :=
      if md.var == "WebSocketPingInterval" && v3 == "" then
        toString cs1.webSocketPingInterval
      else v3
    let v5 :=
      if md.var == "TxUpdatedInterval" && v4 == "" then
        toString DEFAULT_TX_UPDATED_INTERVAL
      else v4
    (applyPostProcess cs1 md v5, cs1)

/-- One size-control truncation step of the read pipeline: applied only when
the configuration value is present and a non-empty string. -/
def applySizeStep (o : Option String) (w : String) : String :=
  match o with
  | some t => if !(t == "") then enforceReportingValueSize w t else w
  | none => w

/-- The final absolute-cap step of the read pipeline. -/
def capStep (w : String) : String :=
  if w.length > OCPP_VALUE_ABSOLUTE_MAX_LENGTH then
    takeCodePoints w OCPP_VALUE_ABSOLUTE_MAX_LENGTH
  else w

/-- The read-side truncation pipeline of `getVariable`: `ValueSize` then
`ReportingValueSize` (each applied only when the configuration value is a
non-empty string and the corresponding composite key did not fail the
self-check), then the absolute cap. -/
def applyReadTruncations (invalid : List String) (keys : List ConfigurationKey)
    (value : String) : String :=
  let valueSize : Option String :=
    if invalid.contains valueSizeKey then none
    else (getConfigurationKey keys "ValueSize").map ConfigurationKey.value
  let reportingValueSize : Option String :=
    if invalid.contains reportingValueSizeKey then none
    else (getConfigurationKey keys "ReportingValueSize").map ConfigurationKey.value
  capStep (applySizeStep reportingValueSize (applySizeStep valueSize value))

/-- The MinSet/MaxSet read of `getVariable`, over the respective override
map and static bound: `NotSupportedAttributeType` when neither exists, else
the override if set, else the static bound rendered as a decimal string. -/
def getBoundRead (ovr : List (String × String)) (static : Option Int) (d : GetVariableData)
    (vk : String) (rAT : AttributeEnumType) : GetVariableResult :=
  if static == none && (List.lookup vk ovr).isNone then
    rejectGet d.var d.component (some rAT) .NotSupportedAttributeType .UnsupportedParam
      ("Attribute type " ++ rAT.toStr ++ " is not supported for variable " ++ d.var.name)
  else
    { attributeStatus := .Accepted, attributeType := some rAT,
      attributeValue := some
        (match List.lookup vk ovr with
         | some s => s
         | none => match static with | some m => toString m | none => ""),
      component := d.component, var := d.var }

/-- The resolved-value read of `getVariable`: empty values are accepted for
a supported `Target` and rejected otherwise; non-empty values run through
the read truncation pipeline. -/
def getResolvedRead (reg : Registry) (mgr : MgrState) (cs : ChargingStation)
    (d : GetVariableData) (md : VariableMetadata) (rAT : AttributeEnumType) :
    GetVariableResult × ChargingStation :=
  if (resolveVariableValue reg mgr cs d.component d.var).1.length == 0 then
    if rAT == .Target && md.supportsTarget then
      ({ attributeStatus := .Accepted, attributeType := some rAT,
         attributeValue := some "", component := d.component, var := d.var },
       (resolveVariableValue reg mgr cs d.component d.var).2)
    else
      (rejectGet d.var d.component (some rAT) .Rejected .InvalidValue
        "Resolved variable value is empty",
       (resolveVariableValue reg mgr cs d.component d.var).2)
  else
    ({ attributeStatus := .Accepted, attributeType := some rAT,
       attributeValue := some
         (applyReadTruncations mgr.invalidVariables
           (resolveVariableValue reg mgr cs d.component d.var).2.configurationKeys
           (resolveVariableValue reg mgr cs d.component d.var).1),
       component := d.component, var := d.var },
     (resolveVariableValue reg mgr cs d.component d.var).2)

/-- `getVariable` of the manager, returning the item result together with the
(possibly extended by lazy materialization) station. -/
def getVariable (reg : Registry) (mgr : MgrState) (cs : ChargingStation)
    (d : GetVariableData) : GetVariableResult × ChargingStation :=
  if !isComponentValid d.component then
    (rejectGet d.var d.component d.attributeType .UnknownComponent .NotFound
      ("Component " ++ d.component.name ++ " is not supported by this charging station"), cs)
  else if !isVariableSupported reg d.component d.var then
    (rejectGet d.var d.component d.attributeType .UnknownVariable .NotFound
      ("Variable " ++ d.var.name ++ " is not supported for component " ++ d.component.name), cs)
  else if (match getVariableMetadata reg d.component.name d.var.name
        (orElseOpt d.var.inst d.component.inst) with
      | some md => md.mutability == MutabilityEnumType.WriteOnly
      | none => false) &&
      (d.attributeType.getD .Actual == AttributeEnumType.Actual) then
    (rejectGet d.var d.component (some (d.attributeType.getD .Actual)) .Rejected .WriteOnly
      ("Variable " ++ d.var.name ++ " is write-only and cannot be retrieved"), cs)
  else
    match getVariableMetadata reg d.component.name d.var.name
      (orElseOpt d.var.inst d.component.inst) with
    | none =>
      (rejectGet d.var d.component (some (d.attributeType.getD .Actual))
        .NotSupportedAttributeType .UnsupportedParam
        ("Attribute type " ++ (d.attributeType.getD .Actual).toStr ++
          " is not supported for variable " ++ d.var.name), cs)
    | some md =>
      if !(md.supportedAttributes.contains (d.attributeType.getD .Actual)) then
        (rejectGet d.var d.component (some (d.attributeType.getD .Actual))
          .NotSupportedAttributeType .UnsupportedParam
          ("Attribute type " ++ (d.attributeType.getD .Actual).toStr ++
            " is not supported for variable " ++ d.var.name), cs)
      else if mgr.invalidVariables.contains
          (buildCaseInsensitiveCompositeKey d.component.name d.component.inst d.var.name) then
        (rejectGet d.var d.component (some (d.attributeType.getD .Actual)) .Rejected .InternalError
          "Variable mapping invalid (startup self-check failed)", cs)
      else if d.attributeType.getD .Actual == AttributeEnumType.MinSet then
        (getBoundRead mgr.minSetOverrides md.min d
          (buildCaseInsensitiveCompositeKey d.component.name d.component.inst d.var.name)
          (d.attributeType.getD .Actual), cs)
      else if d.attributeType.getD .Actual == AttributeEnumType.MaxSet then
        (getBoundRead mgr.maxSetOverrides md.max d
          (buildCaseInsensitiveCompositeKey d.component.name d.component.inst d.var.name)
          (d.attributeType.getD .Actual), cs)
      else
        getResolvedRead reg mgr cs d md (d.attributeType.getD .Actual)

/-- Outcome of a `setVariable` call: the item result plus the updated manager
state and station. -/
structure SetOutcome where
  result : SetVariableResult
  mgr : MgrState
  station : ChargingStation
deriving Repr

/-- The MinSet/MaxSet branch of `setVariable` (allowed even if `Actual` is
read-only): integer-only, signed-integer format with the distinct decimal
rejection, static bound checks, cross check against the other effective
bound, then the override store. -/
def setBoundOverride (mgr1 : MgrState) (cs : ChargingStation) (d : SetVariableData)
    (md : VariableMetadata) (variableKey : String) (rAT : AttributeEnumType) : SetOutcome :=
  let x := d.attributeValue
  if !(md.dataType == .integer) then
    ⟨rejectSet d.var d.component rAT .Rejected .InvalidValue
      "MinSet/MaxSet only valid for integer data type", mgr1, cs⟩
  else if !isSignedIntegerString x then
    if isDecimalString x then
      ⟨rejectSet d.var d.component rAT .Rejected .InvalidValue
        "Integer must not be decimal", mgr1, cs⟩
    else
      ⟨rejectSet d.var d.component rAT .Rejected .InvalidValue
        "Integer required for MinSet/MaxSet", mgr1, cs⟩
  else
    match convertToIntOrNaN x with
    | none =>
      ⟨rejectSet d.var d.component rAT .Rejected .InvalidValue
        "Integer required for MinSet/MaxSet", mgr1, cs⟩
    | some intValue =>
      if (match md.min with | some m => decide (intValue < m) | none => false) then
        ⟨rejectSet d.var d.component rAT .Rejected .ValueTooLow
          "Value below metadata minimum", mgr1, cs⟩
      else if (match md.max with | some m => decide (m < intValue) | none => false) then
        ⟨rejectSet d.var d.component rAT .Rejected .ValueTooHigh
          "Value above metadata maximum", mgr1, cs⟩
      else if rAT == .MinSet then
        let currentMax : Option String :=
          orElseOpt (mgr1.maxSetOverrides.lookup variableKey) (md.max.map toString)
        let conflict :=
          match currentMax with
          | some s =>
            match convertToIntOrNaN s with
            | some m => decide (m < intValue)
            | none => false
          | none => false
        if conflict then
          ⟨rejectSet d.var d.component rAT .Rejected .InvalidValue
            "MinSet higher than MaxSet", mgr1, cs⟩
        else
          ⟨{ attributeStatus := .Accepted, attributeType := rAT,
             component := d.component, var := d.var },
           { mgr1 with minSetOverrides := setAssoc mgr1.minSetOverrides variableKey x }, cs⟩
      else
        let currentMin : Option String :=
          orElseOpt (mgr1.minSetOverrides.lookup variableKey) (md.min.map toString)
        let conflict :=
          match currentMin with
          | some s =>
            match convertToIntOrNaN s with
            | some m => decide (intValue < m)
            | none => false
          | none => false
        if conflict then
          ⟨rejectSet d.var d.component rAT .Rejected .InvalidValue
            "MaxSet lower than MinSet", mgr1, cs⟩
        else
          ⟨{ attributeStatus := .Accepted, attributeType := rAT,
             component := d.component, var := d.var },
           { mgr1 with maxSetOverrides := setAssoc mgr1.maxSetOverrides variableKey x }, cs⟩

/-- The effective write-size limit of an `Actual` set: the smaller of the
positive `ConfigurationValueSize` and `ValueSize` configuration values
(each ignored when its composite key failed the self-check), the absolute
cap when neither is positive, and the cap as a hard upper bound. -/
def effectiveSizeLimit (invalid : List String) (keys : List ConfigurationKey) : Nat :=
  let configurationValueSizeRaw : Option String :=
    if invalid.contains configurationValueSizeKey then none
    else (getConfigurationKey keys "ConfigurationValueSize").map ConfigurationKey.value
  let valueSizeRaw : Option String :=
    if invalid.contains valueSizeKey then none
    else (getConfigurationKey keys "ValueSize").map ConfigurationKey.value
  let cfgLimit : Option Nat :=
    match convertToIntOrNaN (configurationValueSizeRaw.getD "") with
    | some i => if 0 < i then some i.toNat else none
    | none => none
  let valLimit : Option Nat :=
    match convertToIntOrNaN (valueSizeRaw.getD "") with
    | some i => if 0 < i then some i.toNat else none
    | none => none
  let eff : Option Nat :=
    match valLimit with
    | some v => match cfgLimit with | some c => some (Nat.min c v) | none => some v
    | none => cfgLimit
  Nat.min (eff.getD OCPP_VALUE_ABSOLUTE_MAX_LENGTH) OCPP_VALUE_ABSOLUTE_MAX_LENGTH

/-- The integer MinSet/MaxSet override enforcement of an `Actual`/`Target`
set: `some` holds the rejection reason and info when an active parsed
override is violated. -/
def overridesCheck (mgr1 : MgrState) (md : VariableMetadata) (variableKey : String)
    (x : String) : Option (ReasonCodeEnumType × String) :=
  if md.dataType == .integer then
    match convertToIntOrNaN x with
    | some num =>
      let belowMin :=
        match mgr1.minSetOverrides.lookup variableKey with
        | some raw =>
          match convertToIntOrNaN raw with
          | some m => decide (num < m)
          | none => false
        | none => false
      if belowMin then some (.ValueTooLow, "Value below MinSet override")
      else
        let aboveMax :=
          match mgr1.maxSetOverrides.lookup variableKey with
          | some raw =>
            match convertToIntOrNaN raw with
            | some m => decide (m < num)
            | none => false
          | none => false
        if aboveMax then some (.ValueTooHigh, "Value above MaxSet override")
        else none
    | none => none
  else none

/-- The write phase of `setVariable`: persistent non-write-only entries are
upserted into the ConfigurationKey Store, the reboot-required flag is
computed against the previous value, volatile entries update the runtime
override map. -/
def commitWrite (mgr1 : MgrState) (cs : ChargingStation) (d : SetVariableData)
    (md : VariableMetadata) (variableKey : String) (rAT : AttributeEnumType) : SetOutcome :=
  let x := d.attributeValue
  let keyName := computeConfigurationKeyName md
  let previousValue := (getConfigurationKey cs.configurationKeys keyName).map ConfigurationKey.value
  let persistentWrite := md.persistence == .Persistent && !(md.mutability == .WriteOnly)
  let keys1 :=
    if persistentWrite then
      match getConfigurationKey cs.configurationKeys keyName with
      | none => addConfigurationKey cs.configurationKeys keyName x
      | some k =>
        if !(k.value == x) then setConfigurationKeyValue cs.configurationKeys keyName x
        else cs.configurationKeys
    else cs.configurationKeys
  let rebootRequired :=
    persistentWrite &&
    (md.rebootRequired ||
      ((getConfigurationKey keys1 keyName).bind ConfigurationKey.reboot == some true)) &&
    !(previousValue == some x)
  let mgr2 :=
    if md.persistence == .Volatile then
      { mgr1 with runtimeOverrides := setAssoc mgr1.runtimeOverrides variableKey x }
    else mgr1
  let cs2 := { cs with configurationKeys := keys1 }
  if rebootRequired then
    ⟨{ attributeStatus := .RebootRequired,
       attributeStatusInfo := some
         { additionalInfo := "Value changed, reboot required to take effect",
           reasonCode := .NoError },
       attributeType := rAT, component := d.component, var := d.var }, mgr2, cs2⟩
  else
    ⟨{ attributeStatus := .Accepted, attributeType := rAT,
       component := d.component, var := d.var }, mgr2, cs2⟩

/-- The `Actual`/`Target` branch of `setVariable`: read-only rejection, the
effective-size-limit check (guarded on `Actual`), the `AuthorizeRemoteStart`
special case or the validator plus the dynamic override enforcement, then
the write phase. -/
def setActual (mgr1 : MgrState) (cs : ChargingStation) (d : SetVariableData)
    (md : VariableMetadata) (variableKey : String) (rAT : AttributeEnumType) : SetOutcome :=
  let x := d.attributeValue
  if md.mutability == .ReadOnly then
    ⟨rejectSet d.var d.component rAT .Rejected .ReadOnly
      ("Variable " ++ d.var.name ++ " is read-only"), mgr1, cs⟩
  else
    let effectiveLimit := effectiveSizeLimit mgr1.invalidVariables cs.configurationKeys
    if rAT == .Actual && x.length > effectiveLimit then
      ⟨rejectSet d.var d.component rAT .Rejected .TooLargeElement
        ("Value length exceeds effective size limit (" ++ toString effectiveLimit ++ ")"),
       mgr1, cs⟩
    else if d.component.name == "AuthCtrlr" && d.var.name == "AuthorizeRemoteStart" then
      if !(x == "true") && !(x == "false") then
        ⟨rejectSet d.var d.component rAT .Rejected .InvalidValue
          "AuthorizeRemoteStart must be \"true\" or \"false\"", mgr1, cs⟩
      else commitWrite mgr1 cs d md variableKey rAT
    else
      let validation := validateValue md x
      if !validation.ok then
        ⟨rejectSet d.var d.component rAT .Rejected (validation.reason.getD .InvalidValue)
          (validation.info.getD "Invalid value"), mgr1, cs⟩
      else
        match overridesCheck mgr1 md variableKey x with
        | some rej =>
          ⟨rejectSet d.var d.component rAT .Rejected rej.1 rej.2, mgr1, cs⟩
        | none => commitWrite mgr1 cs d md variableKey rAT

/-- `setVariable` of the manager: component, variable and attribute guards,
the invalid-mapping gate (rejecting non-write-only `Actual` writes and
eagerly clearing the flag on write-only ones), then the MinSet/MaxSet branch
or the `Actual`/`Target` branch. -/
def setVariable (reg : Registry) (mgr : MgrState) (cs : ChargingStation)
    (d : SetVariableData) : SetOutcome :=
  let rAT := d.attributeType.getD .Actual
  if !isComponentValid d.component then
    ⟨rejectSet d.var d.component rAT .UnknownComponent .NotFound
      ("Component " ++ d.component.name ++ " is not supported by this charging station"),
     mgr, cs⟩
  else if !isVariableSupported reg d.component d.var then
    ⟨rejectSet d.var d.component rAT .UnknownVariable .NotFound
      ("Variable " ++ d.var.name ++ " is not supported for component " ++ d.component.name),
     mgr, cs⟩
  else
    match getVariableMetadata reg d.component.name d.var.name
      (orElseOpt d.var.inst d.component.inst) with
    | none =>
      ⟨rejectSet d.var d.component rAT .NotSupportedAttributeType .UnsupportedParam
        ("Attribute type " ++ rAT.toStr ++ " is not supported for variable " ++ d.var.name),
       mgr, cs⟩
    | some md =>
      if !(md.supportedAttributes.contains rAT) then
        ⟨rejectSet d.var d.component rAT .NotSupportedAttributeType .UnsupportedParam
          ("Attribute type " ++ rAT.toStr ++ " is not supported for variable " ++ d.var.name),
         mgr, cs⟩
      else
        let variableKey := buildCaseInsensitiveCompositeKey d.component.name d.component.inst d.var.name
        if mgr.invalidVariables.contains variableKey && rAT == .Actual &&
            !(md.mutability == .WriteOnly) then
          ⟨rejectSet d.var d.component rAT .Rejected .InternalError
            "Variable mapping invalid (startup self-check failed)", mgr, cs⟩
        else
          let mgr1 :=
            if mgr.invalidVariables.contains variableKey && rAT == .Actual &&
                md.mutability == .WriteOnly then
              { mgr with invalidVariables := removeFromSet mgr.invalidVariables variableKey }
            else mgr
          if rAT == .MinSet || rAT == .MaxSet then
            setBoundOverride mgr1 cs d md variableKey rAT
          else
            setActual mgr1 cs d md variableKey rAT

/-- The three size-control variable names whose configuration keys may
legitimately stay unset. -/
def isSizeControlVariable (name : String) : Bool :=
  name == "ConfigurationValueSize" || name == "ValueSize" || name == "ReportingValueSize"

/-- Whether a registry entry is subject to the startup self-check: persistent
and not write-only. -/
def isCheckedEntry (md : VariableMetadata) : Bool :=
  md.persistence == .Persistent && !(md.mutability == .WriteOnly)

/-- One iteration of the `validatePersistentMappings` loop over the pair of
the invalid-variable set being rebuilt and the configuration keys. -/
def validateStep (acc : List String × List ConfigurationKey) (md : VariableMetadata) :
    List String × List ConfigurationKey :=
  if !isCheckedEntry md then acc
  else
    let keyName := computeConfigurationKeyName md
    let variableKey := buildCaseInsensitiveCompositeKey md.component md.inst md.var
    match getConfigurationKey acc.2 keyName with
    | some _ => acc
    | none =>
      if isSizeControlVariable md.var then acc
      else if !(md.inst == none) then acc
      else
        match md.defaultValue with
        | some dv => (acc.1, addConfigurationKey acc.2 keyName dv)
        | none => (addToSet acc.1 variableKey, acc.2)

/-- `validatePersistentMappings` of the manager: the invalid set is cleared
at entry and every persistent non-write-only registry entry with a missing
configuration key is either skipped (size-control variables, instance-scoped
entries), materialized from its default, or marked invalid. -/
def validatePersistentMappings (reg : Registry) (mgr : MgrState) (cs : ChargingStation) :
    MgrState × ChargingStation :=
  let acc := reg.foldl validateStep ([], cs.configurationKeys)
  ({ mgr with invalidVariables := acc.1 }, { cs with configurationKeys := acc.2 })

/-- The per-item internal-error result of the `getVariables` catch branch:
the request's attribute type is echoed verbatim. -/
def mkGetInternalErrorResult (d : GetVariableData) : GetVariableResult :=
  { attributeStatus := .Rejected,
    attributeStatusInfo := some
      { additionalInfo := "Internal error occurred while retrieving variable",
        reasonCode := .InternalError },
    attributeType := d.attributeType,
    attributeValue := none,
    component := d.component, var := d.var }

/-- The per-item internal-error result of the `setVariables` catch branch:
the attribute type is defaulted to `Actual`. -/
def mkSetInternalErrorResult (d : SetVariableData) : SetVariableResult :=
  { attributeStatus := .Rejected,
    attributeStatusInfo := some
      { additionalInfo := "Internal error occurred while setting variable",
        reasonCode := .InternalError },
    attributeType := d.attributeType.getD .Actual,
    component := d.component, var := d.var }

/-- The outer loop of `getVariables`: each item is processed by `step`
(`Except.error` modelling a raised internal error, which is caught, leaves
the station untouched and yields the catch-branch result); results are
collected in input order. -/
def getVariablesLoop
    (step : ChargingStation → GetVariableData → Except Unit (GetVariableResult × ChargingStation)) :
    ChargingStation → List GetVariableData → List GetVariableResult × ChargingStation
  | cs, [] => ([], cs)
  | cs, d :: rest =>
    match step cs d with
    | .ok (r, cs') =>
      let next := getVariablesLoop step cs' rest
      (r :: next.1, next.2)
    | .error _ =>
      let next := getVariablesLoop step cs rest
      (mkGetInternalErrorResult d :: next.1, next.2)

/-- The outer loop of `setVariables`, threading the manager state and the
station; `Except.error` models a raised internal error, caught per item. -/
def setVariablesLoop
    (step : MgrState → ChargingStation → SetVariableData →
      Except Unit (SetVariableResult × MgrState × ChargingStation)) :
    MgrState → ChargingStation → List SetVariableData →
      List SetVariableResult × MgrState × ChargingStation
  | mgr, cs, [] => ([], mgr, cs)
  | mgr, cs, d :: rest =>
    match step mgr cs d with
    | .ok (r, mgr', cs') =>
      let next := setVariablesLoop step mgr' cs' rest
      (r :: next.1, next.2)
    | .error _ =>
      let next := setVariablesLoop step mgr cs rest
      (mkSetInternalErrorResult d :: next.1, next.2)

/-- The step the real `getVariables` loop runs: the translated `getVariable`,
which is total, wrapped in `Except.ok`. -/
def getVariableStep (reg : Registry) (mgr : MgrState) :
    ChargingStation → GetVariableData → Except Unit (GetVariableResult × ChargingStation) :=
  fun cs d => .ok (getVariable reg mgr cs d)

/-- The step the real `setVariables` loop runs: the translated `setVariable`,
which is total, wrapped in `Except.ok`. -/
def setVariableStep (reg : Registry) :
    MgrState → ChargingStation → SetVariableData →
      Except Unit (SetVariableResult × MgrState × ChargingStation) :=
  fun mgr cs d =>
    let o := setVariable reg mgr cs d
    .ok (o.result, o.mgr, o.station)

/-- `getVariables` of the manager: self-check first, then the per-item loop. -/
def getVariables (reg : Registry) (mgr : MgrState) (cs : ChargingStation)
    (items : List GetVariableData) : List GetVariableResult × MgrState × ChargingStation :=
  let checked := validatePersistentMappings reg mgr cs
  let looped := getVariablesLoop (getVariableStep reg checked.1) checked.2 items
  (looped.1, checked.1, looped.2)

/-- `setVariables` of the manager: self-check first, then the per-item loop. -/
def setVariables (reg : Registry) (mgr : MgrState) (cs : ChargingStation)
    (items : List SetVariableData) : List SetVariableResult × MgrState × ChargingStation :=
  let checked := validatePersistentMappings reg mgr cs
  setVariablesLoop (setVariableStep reg) checked.1 checked.2 items

/-! Sample registry entries and stations used by witnesses and
counterexamples. -/

/-- Sample registry entry: `AuthCtrlr` / `AuthorizeRemoteStart`. -/
def mdAuthorizeRemoteStart : VariableMetadata :=
  { component := "AuthCtrlr", var := "AuthorizeRemoteStart", dataType := .boolean,
    mutability := .ReadWrite, persistence := .Persistent,
    supportedAttributes := [.Actual], defaultValue := some "true" }

/-- Sample registry entry: `OCPPCommCtrlr` / `HeartbeatInterval`. -/
def mdHeartbeatInterval : VariableMetadata :=
  { component := "OCPPCommCtrlr", var := "HeartbeatInterval", dataType := .integer,
    mutability := .ReadWrite, persistence := .Persistent,
    supportedAttributes := [.Actual, .MinSet, .MaxSet], defaultValue := some "60",
    min := some 0, max := some 86400 }

/-- Sample registry with the two entries above. -/
def sampleRegistry : Registry := [mdAuthorizeRemoteStart, mdHeartbeatInterval]

/-- Sample station whose store holds the two sample keys. -/
def sampleStation : ChargingStation :=
  { configurationKeys :=
      [{ key := "AuthorizeRemoteStart", value := "true" },
       { key := "HeartbeatInterval", value := "60" }] }

/-! Basic lemmas about the embedding's primitive operations. -/

/-- The length of a code-point truncation. -/
theorem length_takeCodePoints (s : String) (n : Nat) :
    (takeCodePoints s n).length = Nat.min n s.length := by
  show (s.data.take n).length = Nat.min n s.data.length
  exact List.length_take n s.data

/-- Truncated info strings are at most 50 characters long. -/
theorem length_truncateInfo_le (s : String) : (truncateInfo s).length ≤ 50 := by
  unfold truncateInfo
  split
  · rw [length_takeCodePoints]
    exact Nat.min_le_left _ _
  · omega

/-- `rejectGet` results carry status info of at most 50 characters. -/
theorem rejectGet_info_le (v : VariableType) (c : ComponentType)
    (at? : Option AttributeEnumType) (st : GetVariableStatusEnumType)
    (r : ReasonCodeEnumType) (info : String) (si : StatusInfoType)
    (h : (rejectGet v c at? st r info).attributeStatusInfo = some si) :
    si.additionalInfo.length ≤ 50 := by
  simp only [rejectGet, Option.some.injEq] at h
  subst h
  exact length_truncateInfo_le info

/-- `rejectSet` results carry status info of at most 50 characters. -/
theorem rejectSet_info_le (v : VariableType) (c : ComponentType)
    (at_ : AttributeEnumType) (st : SetVariableStatusEnumType)
    (r : ReasonCodeEnumType) (info : String) (si : StatusInfoType)
    (h : (rejectSet v c at_ st r info).attributeStatusInfo = some si) :
    si.additionalInfo.length ≤ 50 := by
  simp only [rejectSet, Option.some.injEq] at h
  subst h
  exact length_truncateInfo_le info

/-- Truncation by a parsed positive limit bounds the length by that limit. -/
theorem length_enforceReportingValueSize_le (v lim : String) (i : Int)
    (h : convertToIntOrNaN lim = some i) (hp : 0 < i) :
    (enforceReportingValueSize v lim).length ≤ i.toNat := by
  unfold enforceReportingValueSize
  simp only [h]
  rw [if_pos hp, length_takeCodePoints]
  exact Nat.min_le_left _ _

/-- Truncation never lengthens a string. -/
theorem length_enforceReportingValueSize_le_self (v lim : String) :
    (enforceReportingValueSize v lim).length ≤ v.length := by
  unfold enforceReportingValueSize
  split
  · split
    · rw [length_takeCodePoints]
      exact Nat.min_le_right _ _
    · exact Nat.le_refl _
  · exact Nat.le_refl _

/-- A metadata hit with the requested instance makes the variable supported. -/
theorem isVariableSupported_of_metadata (reg : Registry) (c : ComponentType)
    (v : VariableType) (md : VariableMetadata)
    (h : getVariableMetadata reg c.name v.name (orElseOpt v.inst c.inst) = some md) :
    isVariableSupported reg c v = true := by
  simp [isVariableSupported, h]

/-- Removing a key from a set removes it. -/
theorem contains_removeFromSet_self (l : List String) (k : String) :
    (removeFromSet l k).contains k = false := by
  simp [removeFromSet, List.contains_eq_any_beq]

/-- Removal from a set cannot introduce membership. -/
theorem contains_removeFromSet_false (l : List String) (k k' : String)
    (h : l.contains k' = false) : (removeFromSet l k).contains k' = false := by
  simp only [List.contains_eq_any_beq, removeFromSet] at h ⊢
  induction l with
  | nil => rfl
  | cons x xs ih =>
    simp only [List.any_cons, Bool.or_eq_false_iff] at h
    simp only [List.filter]
    split
    · simp [List.any_cons, h.1, ih h.2]
    · exact ih h.2

/-! Claim C5: case sensitivity of `getVariable`. -/

/-- C5 counterexample: changing only the casing of the component and
variable names changes the result of `getVariable`.  With the supported
registry entry `AuthCtrlr` / `AuthorizeRemoteStart` present and resolvable,
the request with component name `authctrlr` is answered differently from the
request with component name `AuthCtrlr`, refuting the claimed
case-insensitive round trip. -/
theorem getVariable_caseSensitivity_counterexample :
    (getVariable sampleRegistry {} sampleStation
      { component := { name := "authctrlr" }, var := { name := "authorizeRemoteStart" } }).1 ≠
    (getVariable sampleRegistry {} sampleStation
      { component := { name := "AuthCtrlr" }, var := { name := "AuthorizeRemoteStart" } }).1 := by
  decide

/-- C5 amended: `getVariable` compares the component name case-sensitively
against the supported component set, so the lower-cased request is rejected
as `UnknownComponent` / `NotFound` while the properly cased request is
accepted with the stored value; composite keys themselves are lower-cased.
-/
theorem getVariable_componentName_caseSensitive :
    isComponentValid { name := "authctrlr" } = false ∧
    isComponentValid { name := "AuthCtrlr" } = true ∧
    (getVariable sampleRegistry {} sampleStation
      { component := { name := "authctrlr" }, var := { name := "authorizeRemoteStart" } }).1.attributeStatus =
      .UnknownComponent ∧
    ((getVariable sampleRegistry {} sampleStation
      { component := { name := "authctrlr" }, var := { name := "authorizeRemoteStart" } }).1.attributeStatusInfo.map
        StatusInfoType.reasonCode) = some .NotFound ∧
    (getVariable sampleRegistry {} sampleStation
      { component := { name := "AuthCtrlr" }, var := { name := "AuthorizeRemoteStart" } }).1.attributeStatus =
      .Accepted ∧
    (getVariable sampleRegistry {} sampleStation
      { component := { name := "AuthCtrlr" }, var := { name := "AuthorizeRemoteStart" } }).1.attributeValue =
      some "true" ∧
    buildCaseInsensitiveCompositeKey "AuthCtrlr" none "AuthorizeRemoteStart" =
      buildCaseInsensitiveCompositeKey "authctrlr" none "authorizeRemoteStart" := by
  decide

/-! Frame lemmas: which parts of the manager state each `setVariable` phase
can touch. -/

/-- The MinSet/MaxSet branch never touches the invalid set, the runtime
overrides or the station. -/
theorem setBoundOverride_frame (mgr1 : MgrState) (cs : ChargingStation)
    (d : SetVariableData) (md : VariableMetadata) (vk : String) (rAT : AttributeEnumType) :
    (setBoundOverride mgr1 cs d md vk rAT).mgr.invalidVariables = mgr1.invalidVariables ∧
    (setBoundOverride mgr1 cs d md vk rAT).mgr.runtimeOverrides = mgr1.runtimeOverrides ∧
    (setBoundOverride mgr1 cs d md vk rAT).station = cs := by
  refine ⟨?_, ?_, ?_⟩
  all_goals
    simp only [setBoundOverride]
    repeat' split
    all_goals rfl

/-- The write phase never touches the invalid set or the bound override
maps. -/
theorem commitWrite_frame (mgr1 : MgrState) (cs : ChargingStation)
    (d : SetVariableData) (md : VariableMetadata) (vk : String) (rAT : AttributeEnumType) :
    (commitWrite mgr1 cs d md vk rAT).mgr.invalidVariables = mgr1.invalidVariables ∧
    (commitWrite mgr1 cs d md vk rAT).mgr.minSetOverrides = mgr1.minSetOverrides ∧
    (commitWrite mgr1 cs d md vk rAT).mgr.maxSetOverrides = mgr1.maxSetOverrides := by
  refine ⟨?_, ?_, ?_⟩
  all_goals
    simp only [commitWrite]
    repeat' split
    all_goals rfl

/-- The `Actual`/`Target` branch never touches the invalid set or the bound
override maps. -/
theorem setActual_frame (mgr1 : MgrState) (cs : ChargingStation)
    (d : SetVariableData) (md : VariableMetadata) (vk : String) (rAT : AttributeEnumType) :
    (setActual mgr1 cs d md vk rAT).mgr.invalidVariables = mgr1.invalidVariables ∧
    (setActual mgr1 cs d md vk rAT).mgr.minSetOverrides = mgr1.minSetOverrides ∧
    (setActual mgr1 cs d md vk rAT).mgr.maxSetOverrides = mgr1.maxSetOverrides := by
  have hc := commitWrite_frame mgr1 cs d md vk rAT
  refine ⟨?_, ?_, ?_⟩
  all_goals
    simp only [setActual]
    repeat' split
    all_goals first
      | rfl
      | exact hc.1
      | exact hc.2.1
      | exact hc.2.2

/-! Claim C9: the invalid-mapping gate of `setVariable`. -/

/-- Sample registry entry: `SecurityCtrlr` / `BasicAuthPassword`
(write-only). -/
def mdBasicAuthPassword : VariableMetadata :=
  { component := "SecurityCtrlr", var := "BasicAuthPassword", dataType := .string,
    mutability := .WriteOnly, persistence := .Persistent,
    supportedAttributes := [.Actual] }

/-- Manager state in which `BasicAuthPassword` failed the self-check. -/
def writeOnlyFlaggedMgr : MgrState :=
  { invalidVariables := [buildCaseInsensitiveCompositeKey "SecurityCtrlr" none "BasicAuthPassword"] }

/-- Station whose store limits `ValueSize` to 3. -/
def valueSize3Station : ChargingStation :=
  { configurationKeys := [{ key := "ValueSize", value := "3" }] }

/-- An oversize `Actual` write to the write-only `BasicAuthPassword`. -/
def writeOnlyOversizeData : SetVariableData :=
  { attributeType := some .Actual, attributeValue := "abcd",
    component := { name := "SecurityCtrlr" }, var := { name := "BasicAuthPassword" } }

/-- C9 counterexample: a write-only variable flagged by the self-check whose
`Actual` write is rejected (`TooLargeElement`, value of length 4 against an
effective limit of 3) nevertheless has its invalid flag cleared, refuting
the claim that the flag is cleared exactly when the write succeeds. -/
theorem setVariable_writeOnly_eagerClear_counterexample :
    (setVariable [mdBasicAuthPassword] writeOnlyFlaggedMgr valueSize3Station
      writeOnlyOversizeData).result.attributeStatus = .Rejected ∧
    ((setVariable [mdBasicAuthPassword] writeOnlyFlaggedMgr valueSize3Station
      writeOnlyOversizeData).result.attributeStatusInfo.map StatusInfoType.reasonCode) =
      some .TooLargeElement ∧
    (setVariable [mdBasicAuthPassword] writeOnlyFlaggedMgr valueSize3Station
      writeOnlyOversizeData).mgr.invalidVariables.contains
      (buildCaseInsensitiveCompositeKey "SecurityCtrlr" none "BasicAuthPassword") = false := by
  decide

/-- A key is never a member of the set it was removed from. -/
theorem not_mem_removeFromSet_self (l : List String) (k : String) :
    k ∉ removeFromSet l k := by
  simp [removeFromSet, List.mem_filter]

/-- C9 (amended): for an `Actual` set on a variable whose composite key is in
`invalidVariables`, a non-write-only variable gets `Rejected` /
`InternalError` with no state change, while a write-only variable has the
invalid flag cleared as soon as the write is attempted (before validation),
whatever the outcome of the rest of the call. -/
theorem setVariable_invalidMapping_gate (reg : Registry) (mgr : MgrState)
    (cs : ChargingStation) (d : SetVariableData) (md : VariableMetadata)
    (hat : d.attributeType.getD .Actual = .Actual)
    (hc : isComponentValid d.component = true)
    (hmd : getVariableMetadata reg d.component.name d.var.name
      (orElseOpt d.var.inst d.component.inst) = some md)
    (hsup : md.supportedAttributes.contains .Actual = true)
    (hflag : mgr.invalidVariables.contains
      (buildCaseInsensitiveCompositeKey d.component.name d.component.inst d.var.name) = true) :
    (¬ md.mutability = .WriteOnly →
      setVariable reg mgr cs d =
        ⟨rejectSet d.var d.component .Actual .Rejected .InternalError
          "Variable mapping invalid (startup self-check failed)", mgr, cs⟩) ∧
    (md.mutability = .WriteOnly →
      (setVariable reg mgr cs d).mgr.invalidVariables.contains
        (buildCaseInsensitiveCompositeKey d.component.name d.component.inst d.var.name) = false) := by
  have hv := isVariableSupported_of_metadata reg d.component d.var md hmd
  have hsupm : AttributeEnumType.Actual ∈ md.supportedAttributes := by
    simpa using hsup
  have hflagm : buildCaseInsensitiveCompositeKey d.component.name d.component.inst d.var.name ∈
      mgr.invalidVariables := by
    simpa using hflag
  constructor
  · intro hw
    have hwb : (md.mutability == MutabilityEnumType.WriteOnly) = false := by
      simp [hw]
    simp [setVariable, hat, hc, hv, hmd, hsupm, hflagm, hwb]
  · intro hw
    have hwb : (md.mutability == MutabilityEnumType.WriteOnly) = true := by
      simp [hw]
    have hframe := (setActual_frame { invalidVariables := removeFromSet mgr.invalidVariables (buildCaseInsensitiveCompositeKey d.component.name d.component.inst d.var.name), minSetOverrides := mgr.minSetOverrides, maxSetOverrides := mgr.maxSetOverrides, runtimeOverrides := mgr.runtimeOverrides } cs d md (buildCaseInsensitiveCompositeKey d.component.name d.component.inst d.var.name) AttributeEnumType.Actual).1
    simp [setVariable, hat, hc, hv, hmd, hsupm, hflagm, hwb]
    rw [hframe]
    exact not_mem_removeFromSet_self _ _

/-- C9 witness: the amended gate theorem applied to the concrete write-only
scenario clears the flag. -/
theorem setVariable_invalidMapping_gate_witness :
    (setVariable [mdBasicAuthPassword] writeOnlyFlaggedMgr valueSize3Station
      writeOnlyOversizeData).mgr.invalidVariables.contains
      (buildCaseInsensitiveCompositeKey "SecurityCtrlr" none "BasicAuthPassword") = false :=
  (setVariable_invalidMapping_gate [mdBasicAuthPassword] writeOnlyFlaggedMgr valueSize3Station
    writeOnlyOversizeData mdBasicAuthPassword (by rfl) (by decide) (by rfl) (by rfl)
    (by decide)).2 rfl

/-! Claim C6: the resolution order of `resolveVariableValue`. -/

/-- Definition following the claim's words (for comparison against the
translated `resolveVariableValue`): consult the resolve hook, the persistent
store (inserting the resolved value only when the key is missing, a
`defaultValue` exists and the variable is not instance-scoped), the volatile
override map and the well-known live fallbacks, stopping at the first source
that yields a non-empty string, then apply the post-process hook
unconditionally. -/
def resolveVariableValueClaimOrder (reg : Registry) (mgr : MgrState) (cs : ChargingStation)
    (c : ComponentType) (v : VariableType) : String × ChargingStation :=
  match getVariableMetadata reg c.name v.name (orElseOpt v.inst c.inst) with
  | none => ("", cs)
  | some md =>
    let hookVal := resolveValue cs md
    let keyName := computeConfigurationKeyName md
    let keys1 :=
      if (getConfigurationKey cs.configurationKeys keyName).isNone &&
          md.defaultValue.isSome && md.inst == none then
        addConfigurationKey cs.configurationKeys keyName hookVal
      else cs.configurationKeys
    let cs1 := { cs with configurationKeys := keys1 }
    let storeVal :=
      match getConfigurationKey keys1 keyName with
      | some k => k.value
      | none => ""
    let overrideVal :=
      (mgr.runtimeOverrides.lookup (buildCaseInsensitiveCompositeKey c.name c.inst v.name)).getD ""
    let fallbackVal :=
      if md.var == "HeartbeatInterval" then toString (cs.heartbeatIntervalMs / 1000)
      else if md.var == "WebSocketPingInterval" then toString cs.webSocketPingInterval
      else if md.var == "TxUpdatedInterval" then toString DEFAULT_TX_UPDATED_INTERVAL
      else ""
    let raw :=
      if !(hookVal == "") then hookVal
      else if !(storeVal == "") then storeVal
      else if !(overrideVal == "") then overrideVal
      else fallbackVal
    (applyPostProcess cs1 md raw, cs1)

/-- Sample registry entry whose resolve hook reports 30 while the store holds
60. -/
def mdHookHeartbeat : VariableMetadata :=
  { component := "OCPPCommCtrlr", var := "HeartbeatInterval", dataType := .integer,
    mutability := .ReadWrite, persistence := .Persistent,
    supportedAttributes := [.Actual], resolveHook := some (fun _ => "30") }

/-- Registry holding only the hooked entry. -/
def hookRegistry : Registry := [mdHookHeartbeat]

/-- Station whose store holds `HeartbeatInterval = 60`. -/
def hookStation : ChargingStation :=
  { configurationKeys := [{ key := "HeartbeatInterval", value := "60" }] }

/-- C6 counterexample: with a resolve hook yielding the non-empty "30" and a
store entry "60", the code returns the store value while the claimed
stop-at-first-non-empty order returns the hook value, so the claim's order
is not the code's. -/
theorem resolveVariableValue_order_counterexample :
    (resolveVariableValue hookRegistry {} hookStation
      { name := "OCPPCommCtrlr" } { name := "HeartbeatInterval" }).1 = "60" ∧
    (resolveVariableValueClaimOrder hookRegistry {} hookStation
      { name := "OCPPCommCtrlr" } { name := "HeartbeatInterval" }).1 = "30" ∧
    ("60" : String) ≠ "30" := by
  decide

/-- C6 (amended): the hook computes the initial value; for persistent
non-write-only entries a non-empty store value replaces it (the key being
inserted with the resolved value whenever it is missing, regardless of
default or instance scoping); for volatile non-read-only entries a present
non-empty runtime override replaces it; the live fallbacks apply only when
the value is still empty; the post-process hook is applied unconditionally.
-/
theorem resolveVariableValue_precedence (reg : Registry) (mgr : MgrState)
    (cs : ChargingStation) (c : ComponentType) (v : VariableType) (md : VariableMetadata)
    (hmd : getVariableMetadata reg c.name v.name (orElseOpt v.inst c.inst) = some md) :
    (md.persistence = .Persistent → ¬ md.mutability = .WriteOnly →
      ∀ k, getConfigurationKey cs.configurationKeys (computeConfigurationKeyName md) = some k →
        ¬ k.value = "" →
        resolveVariableValue reg mgr cs c v = (applyPostProcess cs md k.value, cs)) ∧
    (md.persistence = .Persistent → ¬ md.mutability = .WriteOnly →
      getConfigurationKey cs.configurationKeys (computeConfigurationKeyName md) = none →
      (resolveVariableValue reg mgr cs c v).2.configurationKeys =
        addConfigurationKey cs.configurationKeys (computeConfigurationKeyName md)
          (resolveValue cs md)) ∧
    (md.persistence = .Volatile → ¬ md.mutability = .ReadOnly →
      ∀ o, mgr.runtimeOverrides.lookup
          (buildCaseInsensitiveCompositeKey c.name c.inst v.name) = some o →
        ¬ o = "" →
        resolveVariableValue reg mgr cs c v = (applyPostProcess cs md o, cs)) := by
  refine ⟨?_, ?_, ?_⟩
  · intro hp hw k hk hkv
    have hpb : (md.persistence == PersistenceEnumType.Persistent) = true := by simp [hp]
    have hwb : (md.mutability == MutabilityEnumType.WriteOnly) = false := by simp [hw]
    have hkvb : (k.value == "") = false := by simpa using hkv
    have hvol : (md.persistence == PersistenceEnumType.Volatile) = false := by
      simp [hp]
    simp [resolveVariableValue, hmd, hpb, hwb, hk, hkvb, hvol]
  · intro hp hw hk
    have hpb : (md.persistence == PersistenceEnumType.Persistent) = true := by simp [hp]
    have hwb : (md.mutability == MutabilityEnumType.WriteOnly) = false := by simp [hw]
    simp [resolveVariableValue, hmd, hpb, hwb, hk]
  · intro hp hw o ho hov
    have hpb : (md.persistence == PersistenceEnumType.Persistent) = false := by simp [hp]
    have hvol : (md.persistence == PersistenceEnumType.Volatile) = true := by simp [hp]
    have hwb : (md.mutability == MutabilityEnumType.ReadOnly) = false := by simp [hw]
    have hovb : (o == "") = false := by simpa using hov
    simp [resolveVariableValue, hmd, hpb, hvol, hwb, ho, hovb]

/-- C6 witness: the precedence theorem applied to the hooked sample, where
the store value 60 wins. -/
theorem resolveVariableValue_precedence_witness :
    resolveVariableValue hookRegistry {} hookStation
      { name := "OCPPCommCtrlr" } { name := "HeartbeatInterval" } =
    (applyPostProcess hookStation mdHookHeartbeat "60", hookStation) :=
  (resolveVariableValue_precedence hookRegistry {} hookStation
    { name := "OCPPCommCtrlr" } { name := "HeartbeatInterval" } mdHookHeartbeat
    (by rfl)).1 rfl (by decide) { key := "HeartbeatInterval", value := "60" } (by rfl)
    (by decide)

/-! Claim C3: MinSet/MaxSet bound invariants. -/

/-- Looking up the key just set in an association map yields the new value. -/
theorem lookup_setAssoc_self (m : List (String × String)) (k v : String) :
    (setAssoc m k v).lookup k = some v := by
  induction m with
  | nil => simp [setAssoc, List.lookup]
  | cons p ps ih =>
    unfold setAssoc at ih ⊢
    by_cases hp : (p.1 == k) = true
    · simpa [List.filter, hp] using ih
    · have hp' : (p.1 == k) = false := by simpa using hp
      have hk : (k == p.1) = false := by
        simp only [beq_eq_false_iff_ne] at hp' ⊢
        exact fun h => hp' h.symm
      simp only [List.filter, hp', Bool.not_false, List.cons_append, List.lookup, hk]
      exact ih

/-- Keys other than the one just set are unaffected in an association map. -/
theorem lookup_setAssoc_ne (m : List (String × String)) (k v k' : String)
    (h : ¬ k' = k) : (setAssoc m k v).lookup k' = m.lookup k' := by
  induction m with
  | nil =>
    have hk : (k' == k) = false := by simpa using h
    simp [setAssoc, List.lookup, hk]
  | cons p ps ih =>
    unfold setAssoc at ih ⊢
    by_cases hp : (p.1 == k) = true
    · have hpk : p.1 = k := by simpa using hp
      have hk : (k' == p.1) = false := by
        simp only [beq_eq_false_iff_ne]
        rw [hpk]; exact h
      simp only [List.filter, hp, Bool.not_true, List.lookup, hk]
      exact ih
    · have hp' : (p.1 == k) = false := by simpa using hp
      simp only [List.filter, hp', Bool.not_false, List.cons_append, List.lookup]
      cases hk : (k' == p.1) with
      | true => rfl
      | false => exact ih

/-- The effective MinSet/MaxSet bound: parsed override when present, else the
static registry bound. -/
def effBound (ovr : List (String × String)) (static : Option Int) (vk : String) : Option Int :=
  match ovr.lookup vk with
  | some s => convertToIntOrNaN s
  | none => static

/-- With valid guards and a MinSet/MaxSet attribute, `setVariable` runs the
bound-override branch on the unchanged manager state. -/
theorem setVariable_toBoundBranch (reg : Registry) (mgr : MgrState) (cs : ChargingStation)
    (d : SetVariableData) (md : VariableMetadata) (rAT : AttributeEnumType)
    (hat : d.attributeType = some rAT)
    (hrat : rAT = .MinSet ∨ rAT = .MaxSet)
    (hc : isComponentValid d.component = true)
    (hmd : getVariableMetadata reg d.component.name d.var.name
      (orElseOpt d.var.inst d.component.inst) = some md)
    (hsup : md.supportedAttributes.contains rAT = true) :
    setVariable reg mgr cs d =
      setBoundOverride mgr cs d md
        (buildCaseInsensitiveCompositeKey d.component.name d.component.inst d.var.name) rAT := by
  have hv := isVariableSupported_of_metadata reg d.component d.var md hmd
  have hsupm : rAT ∈ md.supportedAttributes := by simpa using hsup
  have hne : (rAT == AttributeEnumType.Actual) = false := by
    rcases hrat with h | h <;> simp [h]
  have hor : (rAT == AttributeEnumType.MinSet || rAT == AttributeEnumType.MaxSet) = true := by
    rcases hrat with h | h <;> simp [h]
  simp [setVariable, hat, hc, hv, hmd, hsupm, hne, hor]

/-- What an accepted MinSet write guarantees: the stored value parses, sits
within the static bounds, is at most any parsed active MaxSet override, is
recorded in the MinSet override map, and the MaxSet map is untouched. -/
theorem setBoundOverride_MinSet_spec (mgr : MgrState) (cs : ChargingStation)
    (d : SetVariableData) (md : VariableMetadata) (vk : String)
    (hacc : (setBoundOverride mgr cs d md vk .MinSet).result.attributeStatus = .Accepted) :
    ∃ i, convertToIntOrNaN d.attributeValue = some i ∧
      isSignedIntegerString d.attributeValue = true ∧
      (∀ m, md.min = some m → m ≤ i) ∧
      (∀ M, md.max = some M → i ≤ M) ∧
      (∀ s m, mgr.maxSetOverrides.lookup vk = some s → convertToIntOrNaN s = some m → i ≤ m) ∧
      (setBoundOverride mgr cs d md vk .MinSet).mgr.minSetOverrides =
        setAssoc mgr.minSetOverrides vk d.attributeValue ∧
      (setBoundOverride mgr cs d md vk .MinSet).mgr.maxSetOverrides = mgr.maxSetOverrides := by
  by_cases hdt : (md.dataType == DataEnumType.integer) = true
  case neg =>
    have hdt' : (md.dataType == DataEnumType.integer) = false := by simpa using hdt
    simp [setBoundOverride, hdt', rejectSet] at hacc
  case pos =>
  by_cases hpat : isSignedIntegerString d.attributeValue = true
  case neg =>
    have hpat' : isSignedIntegerString d.attributeValue = false := by simpa using hpat
    simp only [setBoundOverride, hdt, hpat', Bool.not_true, Bool.not_false, if_true, if_false,
      Bool.false_eq_true, ite_false, ite_true] at hacc
    split at hacc <;> simp [rejectSet] at hacc
  case pos =>
  rcases hparse : convertToIntOrNaN d.attributeValue with _ | i
  case none =>
    simp [setBoundOverride, hdt, hpat, hparse, rejectSet] at hacc
  case some =>
  by_cases hmin : (match md.min with | some m => decide (i < m) | none => false) = true
  case pos =>
    simp [setBoundOverride, hdt, hpat, hparse, hmin, rejectSet] at hacc
  case neg =>
  have hmin' : (match md.min with | some m => decide (i < m) | none => false) = false := by
    simpa using hmin
  by_cases hmax : (match md.max with | some m => decide (m < i) | none => false) = true
  case pos =>
    simp [setBoundOverride, hdt, hpat, hparse, hmin', hmax, rejectSet] at hacc
  case neg =>
  have hmax' : (match md.max with | some m => decide (m < i) | none => false) = false := by
    simpa using hmax
  by_cases hconf : (match orElseOpt (mgr.maxSetOverrides.lookup vk) (md.max.map toString) with
      | some s => match convertToIntOrNaN s with | some m => decide (m < i) | none => false
      | none => false) = true
  case pos =>
    simp [setBoundOverride, hdt, hpat, hparse, hmin', hmax', hconf, rejectSet] at hacc
  case neg =>
  have hconf' : (match orElseOpt (mgr.maxSetOverrides.lookup vk) (md.max.map toString) with
      | some s => match convertToIntOrNaN s with | some m => decide (m < i) | none => false
      | none => false) = false := by simpa using hconf
  refine ⟨i, rfl, hpat, ?_, ?_, ?_, ?_, ?_⟩
  · intro m hm
    rw [hm] at hmin'
    simp at hmin'
    omega
  · intro M hM
    rw [hM] at hmax'
    simp at hmax'
    omega
  · intro s m hs hsm
    rw [hs] at hconf'
    simp only [orElseOpt] at hconf'
    rw [hsm] at hconf'
    simp at hconf'
    omega
  · simp [setBoundOverride, hdt, hpat, hparse, hmin', hmax', hconf']
  · simp [setBoundOverride, hdt, hpat, hparse, hmin', hmax', hconf']

/-- What an accepted MaxSet write guarantees, symmetrically. -/
theorem setBoundOverride_MaxSet_spec (mgr : MgrState) (cs : ChargingStation)
    (d : SetVariableData) (md : VariableMetadata) (vk : String)
    (hacc : (setBoundOverride mgr cs d md vk .MaxSet).result.attributeStatus = .Accepted) :
    ∃ i, convertToIntOrNaN d.attributeValue = some i ∧
      isSignedIntegerString d.attributeValue = true ∧
      (∀ m, md.min = some m → m ≤ i) ∧
      (∀ M, md.max = some M → i ≤ M) ∧
      (∀ s m, mgr.minSetOverrides.lookup vk = some s → convertToIntOrNaN s = some m → m ≤ i) ∧
      (setBoundOverride mgr cs d md vk .MaxSet).mgr.maxSetOverrides =
        setAssoc mgr.maxSetOverrides vk d.attributeValue ∧
      (setBoundOverride mgr cs d md vk .MaxSet).mgr.minSetOverrides = mgr.minSetOverrides := by
  by_cases hdt : (md.dataType == DataEnumType.integer) = true
  case neg =>
    have hdt' : (md.dataType == DataEnumType.integer) = false := by simpa using hdt
    simp [setBoundOverride, hdt', rejectSet] at hacc
  case pos =>
  by_cases hpat : isSignedIntegerString d.attributeValue = true
  case neg =>
    have hpat' : isSignedIntegerString d.attributeValue = false := by simpa using hpat
    simp only [setBoundOverride, hdt, hpat', Bool.not_true, Bool.not_false, if_true, if_false,
      Bool.false_eq_true, ite_false, ite_true] at hacc
    split at hacc <;> simp [rejectSet] at hacc
  case pos =>
  rcases hparse : convertToIntOrNaN d.attributeValue with _ | i
  case none =>
    simp [setBoundOverride, hdt, hpat, hparse, rejectSet] at hacc
  case some =>
  by_cases hmin : (match md.min with | some m => decide (i < m) | none => false) = true
  case pos =>
    simp [setBoundOverride, hdt, hpat, hparse, hmin, rejectSet] at hacc
  case neg =>
  have hmin' : (match md.min with | some m => decide (i < m) | none => false) = false := by
    simpa using hmin
  by_cases hmax : (match md.max with | some m => decide (m < i) | none => false) = true
  case pos =>
    simp [setBoundOverride, hdt, hpat, hparse, hmin', hmax, rejectSet] at hacc
  case neg =>
  have hmax' : (match md.max with | some m => decide (m < i) | none => false) = false := by
    simpa using hmax
  by_cases hconf : (match orElseOpt (mgr.minSetOverrides.lookup vk) (md.min.map toString) with
      | some s => match convertToIntOrNaN s with | some m => decide (i < m) | none => false
      | none => false) = true
  case pos =>
    simp [setBoundOverride, hdt, hpat, hparse, hmin', hmax', hconf, rejectSet] at hacc
  case neg =>
  have hconf' : (match orElseOpt (mgr.minSetOverrides.lookup vk) (md.min.map toString) with
      | some s => match convertToIntOrNaN s with | some m => decide (i < m) | none => false
      | none => false) = false := by simpa using hconf
  refine ⟨i, rfl, hpat, ?_, ?_, ?_, ?_, ?_⟩
  · intro m hm
    rw [hm] at hmin'
    simp at hmin'
    omega
  · intro M hM
    rw [hM] at hmax'
    simp at hmax'
    omega
  · intro s m hs hsm
    rw [hs] at hconf'
    simp only [orElseOpt] at hconf'
    rw [hsm] at hconf'
    simp at hconf'
    omega
  · simp [setBoundOverride, hdt, hpat, hparse, hmin', hmax', hconf']
  · simp [setBoundOverride, hdt, hpat, hparse, hmin', hmax', hconf']

/-- A MaxSet write strictly below an active parsed MinSet override is
rejected with `InvalidValue` and the exact info `MaxSet lower than MinSet`.
-/
theorem setBoundOverride_MaxSet_conflict (mgr : MgrState) (cs : ChargingStation)
    (d : SetVariableData) (md : VariableMetadata) (vk : String) (i m : Int) (s : String)
    (hdt : md.dataType = .integer)
    (hpat : isSignedIntegerString d.attributeValue = true)
    (hparse : convertToIntOrNaN d.attributeValue = some i)
    (hmin : ∀ mm, md.min = some mm → ¬ i < mm)
    (hmax : ∀ MM, md.max = some MM → ¬ MM < i)
    (hov : mgr.minSetOverrides.lookup vk = some s)
    (hsp : convertToIntOrNaN s = some m)
    (hlt : i < m) :
    (setBoundOverride mgr cs d md vk .MaxSet).result =
      rejectSet d.var d.component .MaxSet .Rejected .InvalidValue "MaxSet lower than MinSet" := by
  have hdtb : (md.dataType == DataEnumType.integer) = true := by simp [hdt]
  have hminb : (match md.min with | some mm => decide (i < mm) | none => false) = false := by
    rcases hm : md.min with _ | mm
    · rfl
    · simpa using hmin mm hm
  have hmaxb : (match md.max with | some mm => decide (mm < i) | none => false) = false := by
    rcases hm : md.max with _ | mm
    · rfl
    · simpa using hmax mm hm
  simp [setBoundOverride, hdtb, hpat, hparse, hminb, hmaxb, orElseOpt, hov, hsp, hlt]

/-- C3: after any successful MinSet or MaxSet `setVariable` write, the
effective MinSet bound (override if present, else the registry static
minimum) is at most the effective MaxSet bound, and the stored override is
the written value, which parses and lies within the registry's static
bounds; a MaxSet write strictly below the active effective MinSet override
is rejected with `InvalidValue` and info `MaxSet lower than MinSet`. -/
theorem setVariable_minMax_invariant (reg : Registry) (mgr : MgrState) (cs : ChargingStation)
    (d : SetVariableData) (md : VariableMetadata) (rAT : AttributeEnumType)
    (hat : d.attributeType = some rAT)
    (hrat : rAT = .MinSet ∨ rAT = .MaxSet)
    (hc : isComponentValid d.component = true)
    (hmd : getVariableMetadata reg d.component.name d.var.name
      (orElseOpt d.var.inst d.component.inst) = some md)
    (hsup : md.supportedAttributes.contains rAT = true) :
    ((setVariable reg mgr cs d).result.attributeStatus = .Accepted →
      (∀ a b,
        effBound (setVariable reg mgr cs d).mgr.minSetOverrides md.min
          (buildCaseInsensitiveCompositeKey d.component.name d.component.inst d.var.name) = some a →
        effBound (setVariable reg mgr cs d).mgr.maxSetOverrides md.max
          (buildCaseInsensitiveCompositeKey d.component.name d.component.inst d.var.name) = some b →
        a ≤ b) ∧
      (∃ i, convertToIntOrNaN d.attributeValue = some i ∧
        (∀ m, md.min = some m → m ≤ i) ∧ (∀ M, md.max = some M → i ≤ M)) ∧
      (rAT = .MinSet →
        (setVariable reg mgr cs d).mgr.minSetOverrides.lookup
          (buildCaseInsensitiveCompositeKey d.component.name d.component.inst d.var.name) =
          some d.attributeValue) ∧
      (rAT = .MaxSet →
        (setVariable reg mgr cs d).mgr.maxSetOverrides.lookup
          (buildCaseInsensitiveCompositeKey d.component.name d.component.inst d.var.name) =
          some d.attributeValue)) ∧
    (rAT = .MaxSet → md.dataType = .integer →
      ∀ i s m, convertToIntOrNaN d.attributeValue = some i →
        isSignedIntegerString d.attributeValue = true →
        (∀ mm, md.min = some mm → ¬ i < mm) →
        (∀ MM, md.max = some MM → ¬ MM < i) →
        mgr.minSetOverrides.lookup
          (buildCaseInsensitiveCompositeKey d.component.name d.component.inst d.var.name) = some s →
        convertToIntOrNaN s = some m → i < m →
        (setVariable reg mgr cs d).result =
          rejectSet d.var d.component .MaxSet .Rejected .InvalidValue
            "MaxSet lower than MinSet") := by
  have hbr := setVariable_toBoundBranch reg mgr cs d md rAT hat hrat hc hmd hsup
  rw [hbr]
  constructor
  · intro hacc
    rcases hrat with h | h
    · subst h
      obtain ⟨i, hp, hpat, hsmin, hsmax, hover, hmins, hmaxs⟩ :=
        setBoundOverride_MinSet_spec mgr cs d md _ hacc
      refine ⟨?_, ⟨i, hp, hsmin, hsmax⟩, ?_, ?_⟩
      · intro a b ha hb
        rw [hmins] at ha
        simp only [effBound, lookup_setAssoc_self] at ha
        rw [hp] at ha
        injection ha with ha'
        rw [hmaxs] at hb
        simp only [effBound] at hb
        rcases hl : List.lookup
            (buildCaseInsensitiveCompositeKey d.component.name d.component.inst d.var.name)
            mgr.maxSetOverrides with _ | s
        · rw [hl] at hb
          have := hsmax b hb
          omega
        · rw [hl] at hb
          have := hover s b hl hb
          omega
      · intro _
        rw [hmins]
        exact lookup_setAssoc_self _ _ _
      · intro hcontra
        exact absurd hcontra (by simp)
    · subst h
      obtain ⟨i, hp, hpat, hsmin, hsmax, hover, hmaxs, hmins⟩ :=
        setBoundOverride_MaxSet_spec mgr cs d md _ hacc
      refine ⟨?_, ⟨i, hp, hsmin, hsmax⟩, ?_, ?_⟩
      · intro a b ha hb
        rw [hmaxs] at hb
        simp only [effBound, lookup_setAssoc_self] at hb
        rw [hp] at hb
        injection hb with hb'
        rw [hmins] at ha
        simp only [effBound] at ha
        rcases hl : List.lookup
            (buildCaseInsensitiveCompositeKey d.component.name d.component.inst d.var.name)
            mgr.minSetOverrides with _ | s
        · rw [hl] at ha
          have := hsmin a ha
          omega
        · rw [hl] at ha
          have := hover s a hl ha
          omega
      · intro hcontra
        exact absurd hcontra (by simp)
      · intro _
        rw [hmaxs]
        exact lookup_setAssoc_self _ _ _
  · intro h2 hdt i s m hp hpat hminh hmaxh hov hsp hlt
    subst h2
    exact setBoundOverride_MaxSet_conflict mgr cs d md _ i m s hdt hpat hp hminh hmaxh hov hsp hlt

/-- Composite key of the sample `HeartbeatInterval` variable. -/
def hbKey : String := buildCaseInsensitiveCompositeKey "OCPPCommCtrlr" none "HeartbeatInterval"

/-- Manager state where a MinSet override of 30 is installed for
`HeartbeatInterval`. -/
def minSet30Mgr : MgrState := { minSetOverrides := [(hbKey, "30")] }

/-- A MaxSet write of 20 for `HeartbeatInterval`. -/
def maxSet20Data : SetVariableData :=
  { attributeType := some .MaxSet, attributeValue := "20",
    component := { name := "OCPPCommCtrlr" }, var := { name := "HeartbeatInterval" } }

/-- C3 witness: the invariant theorem applied to the spec's own scenario
(MinSet 30 installed, MaxSet 20 requested) produces the exact rejection. -/
theorem setVariable_minMax_invariant_witness :
    (setVariable sampleRegistry minSet30Mgr sampleStation maxSet20Data).result =
      rejectSet maxSet20Data.var maxSet20Data.component .MaxSet .Rejected .InvalidValue
        "MaxSet lower than MinSet" :=
  (setVariable_minMax_invariant sampleRegistry minSet30Mgr sampleStation maxSet20Data
    mdHeartbeatInterval .MaxSet rfl (Or.inr rfl) (by decide) (by rfl) (by rfl)).2 rfl rfl
    20 "30" 30 (by rfl) (by rfl)
    (by intro mm hmm; simp only [mdHeartbeatInterval, Option.some.injEq] at hmm; omega)
    (by intro MM hMM; simp only [mdHeartbeatInterval, Option.some.injEq] at hMM; omega)
    (by rfl) (by rfl) (by decide)

/-! Claim C1: the effective write-size limit of Actual sets. -/

/-- The positive integer value of a configuration key, when the key exists
and its value parses to a positive integer. -/
def positiveKeyValue (keys : List ConfigurationKey) (name : String) : Option Nat :=
  match (getConfigurationKey keys name).map ConfigurationKey.value with
  | some s =>
    match convertToIntOrNaN s with
    | some i => if 0 < i then some i.toNat else none
    | none => none
  | none => none

/-- Definition following the claim's words: the minimum of the positive
integer values of the `ConfigurationValueSize` and `ValueSize` configuration
keys, `OCPP_VALUE_ABSOLUTE_MAX_LENGTH` when neither is positive, hard-capped
at `OCPP_VALUE_ABSOLUTE_MAX_LENGTH`. -/
def specSizeLimit (keys : List ConfigurationKey) : Nat :=
  match positiveKeyValue keys "ConfigurationValueSize", positiveKeyValue keys "ValueSize" with
  | some c, some v => Nat.min (Nat.min c v) OCPP_VALUE_ABSOLUTE_MAX_LENGTH
  | some c, none => Nat.min c OCPP_VALUE_ABSOLUTE_MAX_LENGTH
  | none, some v => Nat.min v OCPP_VALUE_ABSOLUTE_MAX_LENGTH
  | none, none => OCPP_VALUE_ABSOLUTE_MAX_LENGTH

/-- The empty string is not an integer. -/
theorem convertToIntOrNaN_empty : convertToIntOrNaN "" = none := rfl

/-- When neither size composite key failed the self-check, the code's
effective limit is the claim's limit. -/
theorem effectiveSizeLimit_eq_spec (invalid : List String) (keys : List ConfigurationKey)
    (h1 : invalid.contains configurationValueSizeKey = false)
    (h2 : invalid.contains valueSizeKey = false) :
    effectiveSizeLimit invalid keys = specSizeLimit keys := by
  unfold effectiveSizeLimit specSizeLimit positiveKeyValue
  rw [h1, h2]
  simp only [Bool.false_eq_true, if_false]
  rcases hc : (getConfigurationKey keys "ConfigurationValueSize").map ConfigurationKey.value
    with _ | s1 <;>
  rcases hv : (getConfigurationKey keys "ValueSize").map ConfigurationKey.value with _ | s2
  · rfl
  · simp only [Option.getD]
    rcases hp2 : convertToIntOrNaN s2 with _ | i2
    · rfl
    · by_cases hpos : 0 < i2 <;> simp [hpos, convertToIntOrNaN_empty]
  · simp only [Option.getD]
    rcases hp1 : convertToIntOrNaN s1 with _ | i1
    · rfl
    · by_cases hpos : 0 < i1 <;> simp [hpos, convertToIntOrNaN_empty]
  · simp only [Option.getD]
    rcases hp1 : convertToIntOrNaN s1 with _ | i1 <;>
    rcases hp2 : convertToIntOrNaN s2 with _ | i2
    · rfl
    · by_cases h2p : 0 < i2 <;> simp [h2p]
    · by_cases h1p : 0 < i1 <;> simp [h1p]
    · by_cases h1p : 0 < i1 <;> by_cases h2p : 0 < i2 <;> simp [h1p, h2p]

/-- The validator never produces `TooLargeElement`. -/
theorem validateValue_reason_ne_tooLarge (md : VariableMetadata) (x : String) :
    ¬ (validateValue md x).reason.getD .InvalidValue = .TooLargeElement := by
  rcases hdt : md.dataType
  all_goals simp only [validateValue, hdt]
  all_goals repeat' split
  all_goals simp

/-- The dynamic override check only produces `ValueTooLow` or
`ValueTooHigh`. -/
theorem overridesCheck_reason (mgr1 : MgrState) (md : VariableMetadata) (vk x : String)
    (rej : ReasonCodeEnumType × String) (h : overridesCheck mgr1 md vk x = some rej) :
    rej.1 = .ValueTooLow ∨ rej.1 = .ValueTooHigh := by
  simp only [overridesCheck] at h
  repeat' split at h
  all_goals first
    | (simp at h; done)
    | (injection h with h'; rw [← h']; simp)

/-- The write phase never rejects. -/
theorem commitWrite_not_rejected (mgr1 : MgrState) (cs : ChargingStation)
    (d : SetVariableData) (md : VariableMetadata) (vk : String) (rAT : AttributeEnumType) :
    ¬ (commitWrite mgr1 cs d md vk rAT).result.attributeStatus = .Rejected := by
  simp only [commitWrite]
  repeat' split
  all_goals simp

/-- With valid guards, an unflagged variable and an `Actual` attribute,
`setVariable` runs the `Actual` branch on the unchanged manager state. -/
theorem setVariable_toActual (reg : Registry) (mgr : MgrState) (cs : ChargingStation)
    (d : SetVariableData) (md : VariableMetadata)
    (hat : d.attributeType.getD .Actual = .Actual)
    (hc : isComponentValid d.component = true)
    (hmd : getVariableMetadata reg d.component.name d.var.name
      (orElseOpt d.var.inst d.component.inst) = some md)
    (hsup : md.supportedAttributes.contains .Actual = true)
    (hflag : mgr.invalidVariables.contains
      (buildCaseInsensitiveCompositeKey d.component.name d.component.inst d.var.name) = false) :
    setVariable reg mgr cs d =
      setActual mgr cs d md
        (buildCaseInsensitiveCompositeKey d.component.name d.component.inst d.var.name) .Actual := by
  have hv := isVariableSupported_of_metadata reg d.component d.var md hmd
  have hsupm : AttributeEnumType.Actual ∈ md.supportedAttributes := by simpa using hsup
  have hflagm : buildCaseInsensitiveCompositeKey d.component.name d.component.inst d.var.name ∉
      mgr.invalidVariables := by simpa using hflag
  simp [setVariable, hat, hc, hv, hmd, hsupm, hflagm]

/-- Past the size gate, the `Actual`/`Target` branch never rejects with
`TooLargeElement`. -/
theorem setActual_pastSize_not_tooLarge (mgr1 : MgrState) (cs : ChargingStation)
    (d : SetVariableData) (md : VariableMetadata) (vk : String) (rAT : AttributeEnumType)
    (hro : (md.mutability == MutabilityEnumType.ReadOnly) = false)
    (hsize : (rAT == AttributeEnumType.Actual &&
      decide (effectiveSizeLimit mgr1.invalidVariables cs.configurationKeys <
        d.attributeValue.length)) = false) :
    ¬ ((setActual mgr1 cs d md vk rAT).result.attributeStatus = .Rejected ∧
       (setActual mgr1 cs d md vk rAT).result.attributeStatusInfo.map StatusInfoType.reasonCode =
         some .TooLargeElement) := by
  rintro ⟨h1, h2⟩
  by_cases hauth : (d.component.name == "AuthCtrlr" && d.var.name == "AuthorizeRemoteStart") = true
  · by_cases hx : (!(d.attributeValue == "true") && !(d.attributeValue == "false")) = true
    · simp only [setActual, hro, hsize, hauth, hx, Bool.false_eq_true, if_false, if_true,
        Bool.true_and, Bool.and_true] at h2
      simp [rejectSet] at h2
    · have hx' : (!(d.attributeValue == "true") && !(d.attributeValue == "false")) = false := by
        simpa using hx
      simp only [setActual, hro, hsize, hauth, hx', Bool.false_eq_true, if_false, if_true] at h1
      exact commitWrite_not_rejected mgr1 cs d md vk rAT h1
  · have hauth' : (d.component.name == "AuthCtrlr" && d.var.name == "AuthorizeRemoteStart") = false := by
      simpa using hauth
    by_cases hok : (validateValue md d.attributeValue).ok = true
    · rcases hoc : overridesCheck mgr1 md vk d.attributeValue with _ | rej
      · simp only [setActual, hro, hsize, hauth', hok, hoc, Bool.false_eq_true, if_false, if_true,
          Bool.not_true] at h1
        exact commitWrite_not_rejected mgr1 cs d md vk rAT h1
      · simp only [setActual, hro, hsize, hauth', hok, hoc, Bool.false_eq_true, if_false, if_true,
          Bool.not_true] at h2
        simp only [rejectSet, Option.map] at h2
        injection h2 with h2'
        rcases overridesCheck_reason mgr1 md vk d.attributeValue rej hoc with hr | hr <;>
          rw [hr] at h2' <;> exact absurd h2' (by simp)
    · have hok' : (validateValue md d.attributeValue).ok = false := by simpa using hok
      simp only [setActual, hro, hsize, hauth', hok', Bool.false_eq_true, if_false, if_true,
        Bool.not_false] at h2
      simp only [rejectSet, Option.map] at h2
      injection h2 with h2'
      exact validateValue_reason_ne_tooLarge md d.attributeValue h2'

/-- C1: for an Actual set on a supported writable (and unflagged) variable,
the call is rejected with `TooLargeElement` exactly when the value's length
strictly exceeds the claim's effective limit (the minimum of the positive
`ConfigurationValueSize` and `ValueSize` values, defaulting to and capped at
`OCPP_VALUE_ABSOLUTE_MAX_LENGTH`), and in that case the manager state and
the station are unchanged. -/
theorem setVariable_actual_sizeLimit (reg : Registry) (mgr : MgrState) (cs : ChargingStation)
    (d : SetVariableData) (md : VariableMetadata)
    (hat : d.attributeType.getD .Actual = .Actual)
    (hc : isComponentValid d.component = true)
    (hmd : getVariableMetadata reg d.component.name d.var.name
      (orElseOpt d.var.inst d.component.inst) = some md)
    (hsup : md.supportedAttributes.contains .Actual = true)
    (hro : ¬ md.mutability = .ReadOnly)
    (hflag : mgr.invalidVariables.contains
      (buildCaseInsensitiveCompositeKey d.component.name d.component.inst d.var.name) = false)
    (hk1 : mgr.invalidVariables.contains configurationValueSizeKey = false)
    (hk2 : mgr.invalidVariables.contains valueSizeKey = false) :
    (((setVariable reg mgr cs d).result.attributeStatus = .Rejected ∧
      (setVariable reg mgr cs d).result.attributeStatusInfo.map StatusInfoType.reasonCode =
        some .TooLargeElement) ↔
      specSizeLimit cs.configurationKeys < d.attributeValue.length) ∧
    (specSizeLimit cs.configurationKeys < d.attributeValue.length →
      (setVariable reg mgr cs d).mgr = mgr ∧ (setVariable reg mgr cs d).station = cs) := by
  rw [setVariable_toActual reg mgr cs d md hat hc hmd hsup hflag]
  have hrob : (md.mutability == MutabilityEnumType.ReadOnly) = false := by simp [hro]
  have hlim := effectiveSizeLimit_eq_spec mgr.invalidVariables cs.configurationKeys hk1 hk2
  by_cases hbig : specSizeLimit cs.configurationKeys < d.attributeValue.length
  · have hsizeb : (AttributeEnumType.Actual == AttributeEnumType.Actual &&
        decide (effectiveSizeLimit mgr.invalidVariables cs.configurationKeys <
          d.attributeValue.length)) = true := by
      rw [hlim]
      simp [hbig]
    refine ⟨⟨fun _ => hbig, fun _ => ?_⟩, fun _ => ?_⟩
    · simp only [setActual, hrob, hsizeb, Bool.false_eq_true, if_false, if_true]
      simp [rejectSet]
    · simp [setActual, hrob, hlim, hbig]
  · have hsizeb : (AttributeEnumType.Actual == AttributeEnumType.Actual &&
        decide (effectiveSizeLimit mgr.invalidVariables cs.configurationKeys <
          d.attributeValue.length)) = false := by
      rw [hlim]
      simp [hbig]
    refine ⟨⟨fun h => ?_, fun h => absurd h hbig⟩, fun h => absurd h hbig⟩
    exact absurd h (setActual_pastSize_not_tooLarge mgr cs d md _ .Actual hrob hsizeb)

/-- Station whose store holds `HeartbeatInterval` and a `ValueSize` of 2. -/
def valueSize2Station : ChargingStation :=
  { configurationKeys :=
      [{ key := "HeartbeatInterval", value := "60" },
       { key := "ValueSize", value := "2" }] }

/-- An Actual write of the 3-character value `123` to `HeartbeatInterval`. -/
def hbOversizeData : SetVariableData :=
  { attributeType := some .Actual, attributeValue := "123",
    component := { name := "OCPPCommCtrlr" }, var := { name := "HeartbeatInterval" } }

/-- C1 witness: with `ValueSize = 2` the 3-character write is rejected
`TooLargeElement` and leaves manager state and station unchanged. -/
theorem setVariable_actual_sizeLimit_witness :
    ((setVariable sampleRegistry {} valueSize2Station hbOversizeData).result.attributeStatus =
        .Rejected ∧
      (setVariable sampleRegistry {} valueSize2Station hbOversizeData).result.attributeStatusInfo.map
        StatusInfoType.reasonCode = some .TooLargeElement) ∧
    (setVariable sampleRegistry {} valueSize2Station hbOversizeData).mgr = {} ∧
    (setVariable sampleRegistry {} valueSize2Station hbOversizeData).station = valueSize2Station :=
  ⟨(setVariable_actual_sizeLimit sampleRegistry {} valueSize2Station hbOversizeData
      mdHeartbeatInterval rfl (by decide) (by rfl) (by rfl) (by decide) (by rfl) (by rfl)
      (by rfl)).1.mpr (by decide),
   (setVariable_actual_sizeLimit sampleRegistry {} valueSize2Station hbOversizeData
      mdHeartbeatInterval rfl (by decide) (by rfl) (by rfl) (by decide) (by rfl) (by rfl)
      (by rfl)).2 (by decide)⟩

/-! Claim C4: read-side truncation in `getVariable`. -/

/-- A size step never lengthens the string. -/
theorem length_applySizeStep_le (o : Option String) (w : String) :
    (applySizeStep o w).length ≤ w.length := by
  unfold applySizeStep
  split
  · split
    · exact length_enforceReportingValueSize_le_self _ _
    · exact Nat.le_refl _
  · exact Nat.le_refl _

/-- A size step with a present, positively parsing value bounds the length
by that value. -/
theorem length_applySizeStep_bound (s w : String) (n : Int)
    (hn : convertToIntOrNaN s = some n) (hpos : 0 < n) :
    (applySizeStep (some s) w).length ≤ n.toNat := by
  have hne : (s == "") = false := by
    rcases hse : s == "" with _ | _
    · rfl
    · have hs' : s = "" := by simpa using hse
      rw [hs'] at hn
      exact absurd hn (by rw [convertToIntOrNaN_empty]; simp)
  simp only [applySizeStep, hne, Bool.not_false, if_true]
  exact length_enforceReportingValueSize_le w s n hn hpos

/-- The cap step never lengthens the string. -/
theorem length_capStep_le_self (w : String) : (capStep w).length ≤ w.length := by
  unfold capStep
  split
  · rw [length_takeCodePoints]
    exact Nat.min_le_right _ _
  · exact Nat.le_refl _

/-- The cap step bounds the length by the absolute maximum. -/
theorem length_capStep_le_cap (w : String) :
    (capStep w).length ≤ OCPP_VALUE_ABSOLUTE_MAX_LENGTH := by
  unfold capStep
  split
  · rw [length_takeCodePoints]
    exact Nat.min_le_left _ _
  · omega

/-- Bounds of the read-side truncation pipeline: the result is capped at the
absolute maximum and at every defined positive size-control value that was
applied. -/
theorem applyReadTruncations_bounds (invalid : List String) (keys : List ConfigurationKey)
    (value : String) :
    (applyReadTruncations invalid keys value).length ≤ OCPP_VALUE_ABSOLUTE_MAX_LENGTH ∧
    (∀ s n, invalid.contains valueSizeKey = false →
      (getConfigurationKey keys "ValueSize").map ConfigurationKey.value = some s →
      convertToIntOrNaN s = some n → 0 < n →
      (applyReadTruncations invalid keys value).length ≤ n.toNat) ∧
    (∀ s n, invalid.contains reportingValueSizeKey = false →
      (getConfigurationKey keys "ReportingValueSize").map ConfigurationKey.value = some s →
      convertToIntOrNaN s = some n → 0 < n →
      (applyReadTruncations invalid keys value).length ≤ n.toNat) := by
  refine ⟨length_capStep_le_cap _, ?_, ?_⟩
  · intro s n hinv hs hn hpos
    simp only [applyReadTruncations, hinv, Bool.false_eq_true, if_false, hs]
    have h1 := length_applySizeStep_bound s value n hn hpos
    have h2 := length_applySizeStep_le
      (if invalid.contains reportingValueSizeKey then none
       else (getConfigurationKey keys "ReportingValueSize").map ConfigurationKey.value)
      (applySizeStep (some s) value)
    have h3 := length_capStep_le_self
      (applySizeStep
        (if invalid.contains reportingValueSizeKey then none
         else (getConfigurationKey keys "ReportingValueSize").map ConfigurationKey.value)
        (applySizeStep (some s) value))
    omega
  · intro s n hinv hs hn hpos
    simp only [applyReadTruncations, hinv, Bool.false_eq_true, if_false, hs]
    have h1 := length_applySizeStep_bound s
      (applySizeStep
        (if invalid.contains valueSizeKey then none
         else (getConfigurationKey keys "ValueSize").map ConfigurationKey.value) value)
      n hn hpos
    have h3 := length_capStep_le_self
      (applySizeStep (some s)
        (applySizeStep
          (if invalid.contains valueSizeKey then none
           else (getConfigurationKey keys "ValueSize").map ConfigurationKey.value) value))
    omega

/-- Bound reads echo their attribute type. -/
theorem getBoundRead_attributeType (ovr : List (String × String)) (static : Option Int)
    (d : GetVariableData) (vk : String) (rAT : AttributeEnumType) :
    (getBoundRead ovr static d vk rAT).attributeType = some rAT := by
  unfold getBoundRead
  split <;> simp [rejectGet]

/-- Resolved reads echo their attribute type. -/
theorem getResolvedRead_attributeType (reg : Registry) (mgr : MgrState) (cs : ChargingStation)
    (d : GetVariableData) (md : VariableMetadata) (rAT : AttributeEnumType) :
    (getResolvedRead reg mgr cs d md rAT).1.attributeType = some rAT := by
  unfold getResolvedRead
  repeat' split
  all_goals simp [rejectGet]

/-- Every `getVariable` result echoes the resolved attribute type. -/
theorem getVariable_attributeType (reg : Registry) (mgr : MgrState) (cs : ChargingStation)
    (d : GetVariableData) :
    (getVariable reg mgr cs d).1.attributeType =
      some (d.attributeType.getD AttributeEnumType.Actual) := by
  unfold getVariable
  repeat' split
  all_goals first
    | exact getBoundRead_attributeType _ _ _ _ _
    | exact getResolvedRead_attributeType _ _ _ _ _ _
    | simp [rejectGet]

/-- C4: an accepted non-empty `Actual`/`Target` read returns exactly the
resolved value passed through the `ValueSize`, `ReportingValueSize` and
absolute-cap truncation pipeline, so its length respects every defined
positive limit and the absolute cap. -/
theorem getVariable_read_truncation (reg : Registry) (mgr : MgrState) (cs : ChargingStation)
    (d : GetVariableData) (v : String)
    (hacc : (getVariable reg mgr cs d).1.attributeStatus = .Accepted)
    (hat : (getVariable reg mgr cs d).1.attributeType = some .Actual ∨
           (getVariable reg mgr cs d).1.attributeType = some .Target)
    (hval : (getVariable reg mgr cs d).1.attributeValue = some v)
    (hne : ¬ v = "") :
    v = applyReadTruncations mgr.invalidVariables
        (resolveVariableValue reg mgr cs d.component d.var).2.configurationKeys
        (resolveVariableValue reg mgr cs d.component d.var).1 ∧
    v.length ≤ OCPP_VALUE_ABSOLUTE_MAX_LENGTH ∧
    (∀ s n, mgr.invalidVariables.contains valueSizeKey = false →
      (getConfigurationKey (resolveVariableValue reg mgr cs d.component d.var).2.configurationKeys
        "ValueSize").map ConfigurationKey.value = some s →
      convertToIntOrNaN s = some n → 0 < n → v.length ≤ n.toNat) ∧
    (∀ s n, mgr.invalidVariables.contains reportingValueSizeKey = false →
      (getConfigurationKey (resolveVariableValue reg mgr cs d.component d.var).2.configurationKeys
        "ReportingValueSize").map ConfigurationKey.value = some s →
      convertToIntOrNaN s = some n → 0 < n → v.length ≤ n.toNat) := by
  have hty := getVariable_attributeType reg mgr cs d
  have hAT : d.attributeType.getD AttributeEnumType.Actual = AttributeEnumType.Actual ∨
      d.attributeType.getD AttributeEnumType.Actual = AttributeEnumType.Target := by
    rcases hat with h | h
    · left
      rw [hty] at h
      exact Option.some.inj h
    · right
      rw [hty] at h
      exact Option.some.inj h
  have hminA : ¬ d.attributeType.getD AttributeEnumType.Actual = AttributeEnumType.MinSet := by
    rcases hAT with h | h <;> simp [h]
  have hmaxA : ¬ d.attributeType.getD AttributeEnumType.Actual = AttributeEnumType.MaxSet := by
    rcases hAT with h | h <;> simp [h]
  by_cases hcv : isComponentValid d.component = true
  case neg =>
    have h' : isComponentValid d.component = false := by simpa using hcv
    simp [getVariable, h', rejectGet] at hacc
  case pos =>
  by_cases hvs : isVariableSupported reg d.component d.var = true
  case neg =>
    have h' : isVariableSupported reg d.component d.var = false := by simpa using hvs
    simp [getVariable, hcv, h', rejectGet] at hacc
  case pos =>
  rcases hmd : getVariableMetadata reg d.component.name d.var.name
      (orElseOpt d.var.inst d.component.inst) with _ | md
  case none =>
    simp [getVariable, hcv, hvs, hmd, rejectGet] at hacc
  case some =>
  by_cases hwo : md.mutability = MutabilityEnumType.WriteOnly ∧
      d.attributeType.getD AttributeEnumType.Actual = AttributeEnumType.Actual
  case pos =>
    simp [getVariable, hcv, hvs, hmd, hwo.1, hwo.2, rejectGet] at hacc
  case neg =>
  by_cases hsup : d.attributeType.getD AttributeEnumType.Actual ∈ md.supportedAttributes
  case neg =>
    simp [getVariable, hcv, hvs, hmd, hwo, hsup, rejectGet] at hacc
  case pos =>
  by_cases hflag : buildCaseInsensitiveCompositeKey d.component.name d.component.inst d.var.name ∈
      mgr.invalidVariables
  case pos =>
    simp [getVariable, hcv, hvs, hmd, hwo, hsup, hflag, rejectGet] at hacc
  case neg =>
  by_cases hlen : (resolveVariableValue reg mgr cs d.component d.var).1.length = 0
  case pos =>
    by_cases htgt : d.attributeType.getD AttributeEnumType.Actual = AttributeEnumType.Target ∧
        md.supportsTarget = true
    case pos =>
      have hsupT : AttributeEnumType.Target ∈ md.supportedAttributes := htgt.1 ▸ hsup
      have hcall : (getVariable reg mgr cs d).1.attributeValue = some "" := by
        simp [getVariable, getResolvedRead, hcv, hvs, hmd, hwo, hsup, hsupT, hflag, hminA,
          hmaxA, hlen, htgt.1, htgt.2]
      rw [hcall] at hval
      simp only [Option.some.injEq] at hval
      exact absurd hval.symm hne
    case neg =>
      simp [getVariable, getResolvedRead, hcv, hvs, hmd, hwo, hsup, hflag, hminA, hmaxA,
        hlen, htgt, rejectGet] at hacc
  case neg =>
  have hcall : (getVariable reg mgr cs d).1.attributeValue =
      some (applyReadTruncations mgr.invalidVariables
        (resolveVariableValue reg mgr cs d.component d.var).2.configurationKeys
        (resolveVariableValue reg mgr cs d.component d.var).1) := by
    simp [getVariable, getResolvedRead, hcv, hvs, hmd, hwo, hsup, hflag, hminA, hmaxA, hlen]
  rw [hcall] at hval
  simp only [Option.some.injEq] at hval
  subst hval
  exact ⟨rfl, (applyReadTruncations_bounds _ _ _).1,
    (applyReadTruncations_bounds _ _ _).2.1, (applyReadTruncations_bounds _ _ _).2.2⟩

/-- Station with a long `HeartbeatInterval` and `ValueSize = 2`. -/
def truncStation : ChargingStation :=
  { configurationKeys :=
      [{ key := "HeartbeatInterval", value := "3600" },
       { key := "ValueSize", value := "2" }] }

/-- An `Actual` read of the sample `HeartbeatInterval`. -/
def hbReadData : GetVariableData :=
  { attributeType := some .Actual,
    component := { name := "OCPPCommCtrlr" }, var := { name := "HeartbeatInterval" } }

/-- C4 witness: the truncation theorem applied to a concrete accepted read
(`3600` truncated by `ValueSize = 2` to `36`). -/
theorem getVariable_read_truncation_witness :
    ("36" : String) = applyReadTruncations ({} : MgrState).invalidVariables
      (resolveVariableValue sampleRegistry {} truncStation hbReadData.component
        hbReadData.var).2.configurationKeys
      (resolveVariableValue sampleRegistry {} truncStation hbReadData.component hbReadData.var).1 ∧
    ("36" : String).length ≤ OCPP_VALUE_ABSOLUTE_MAX_LENGTH ∧
    (∀ s n, ({} : MgrState).invalidVariables.contains valueSizeKey = false →
      (getConfigurationKey (resolveVariableValue sampleRegistry {} truncStation
        hbReadData.component hbReadData.var).2.configurationKeys
        "ValueSize").map ConfigurationKey.value = some s →
      convertToIntOrNaN s = some n → 0 < n → ("36" : String).length ≤ n.toNat) ∧
    (∀ s n, ({} : MgrState).invalidVariables.contains reportingValueSizeKey = false →
      (getConfigurationKey (resolveVariableValue sampleRegistry {} truncStation
        hbReadData.component hbReadData.var).2.configurationKeys
        "ReportingValueSize").map ConfigurationKey.value = some s →
      convertToIntOrNaN s = some n → 0 < n → ("36" : String).length ≤ n.toNat) :=
  getVariable_read_truncation sampleRegistry {} truncStation hbReadData "36"
    (by decide) (Or.inl (by decide)) (by decide) (by decide)

/-! Claim C10: Target writes skip the size check and share the store entry
with Actual. -/

/-- Reading back a key just added to an empty slot yields the new entry. -/
theorem getConfigurationKey_add_self (keys : List ConfigurationKey) (name x : String)
    (h : getConfigurationKey keys name = none) :
    getConfigurationKey (addConfigurationKey keys name x) name =
      some { key := name, value := x } := by
  unfold addConfigurationKey
  rw [h]
  unfold getConfigurationKey at h ⊢
  induction keys with
  | nil => simp [List.find?]
  | cons a as ih =>
    simp only [List.find?] at h ⊢
    rcases hp : (lowerStr a.key == lowerStr name) with _ | _
    · rw [hp] at h
      simp only [List.cons_append, List.find?, hp]
      exact ih h
    · rw [hp] at h
      exact absurd h (by simp)

/-- Reading back a key whose value was just replaced yields the updated
entry. -/
theorem getConfigurationKey_setValue_self (keys : List ConfigurationKey) (name v : String)
    (k : ConfigurationKey) (h : getConfigurationKey keys name = some k) :
    getConfigurationKey (setConfigurationKeyValue keys name v) name =
      some { k with value := v } := by
  unfold setConfigurationKeyValue
  unfold getConfigurationKey at h ⊢
  induction keys with
  | nil => exact absurd h (by simp [List.find?])
  | cons a as ih =>
    simp only [List.find?] at h
    rcases hp : (lowerStr a.key == lowerStr name) with _ | _
    · rw [hp] at h
      simp only [List.map, List.find?, hp, Bool.false_eq_true, if_false]
      exact ih h
    · rw [hp] at h
      simp only [Option.some.injEq] at h
      subst h
      simp [List.map, List.find?, hp]

/-- After the write phase of a persistent non-write-only variable, the
configuration key holds the written value. -/
theorem commitWrite_store (mgr1 : MgrState) (cs : ChargingStation) (d : SetVariableData)
    (md : VariableMetadata) (vk : String) (rAT : AttributeEnumType)
    (hpers : md.persistence = .Persistent) (hwo : ¬ md.mutability = .WriteOnly) :
    (getConfigurationKey (commitWrite mgr1 cs d md vk rAT).station.configurationKeys
      (computeConfigurationKeyName md)).map ConfigurationKey.value = some d.attributeValue := by
  have hpb : (md.persistence == PersistenceEnumType.Persistent) = true := by simp [hpers]
  have hwb : (md.mutability == MutabilityEnumType.WriteOnly) = false := by simp [hwo]
  rcases hk : getConfigurationKey cs.configurationKeys (computeConfigurationKeyName md)
      with _ | k
  · have hadd := getConfigurationKey_add_self cs.configurationKeys
      (computeConfigurationKeyName md) d.attributeValue hk
    simp only [commitWrite, hpb, hwb, hk, Bool.and_true, Bool.not_false, if_true]
    repeat' split
    all_goals simp_all
  · by_cases hv : (k.value == d.attributeValue) = true
    · have hkv : k.value = d.attributeValue := by simpa using hv
      simp only [commitWrite, hpb, hwb, hk, hv, Bool.and_true, Bool.not_false, Bool.not_true,
        if_true, if_false]
      repeat' split
      all_goals simp_all
    · have hv' : (k.value == d.attributeValue) = false := by simpa using hv
      have hset := getConfigurationKey_setValue_self cs.configurationKeys
        (computeConfigurationKeyName md) d.attributeValue k hk
      simp only [commitWrite, hpb, hwb, hk, hv', Bool.and_true, Bool.not_false, Bool.not_true,
        if_true, if_false]
      repeat' split
      all_goals simp_all

/-- The write phase returns `Accepted` or `RebootRequired`. -/
theorem commitWrite_status (mgr1 : MgrState) (cs : ChargingStation) (d : SetVariableData)
    (md : VariableMetadata) (vk : String) (rAT : AttributeEnumType) :
    (commitWrite mgr1 cs d md vk rAT).result.attributeStatus = .Accepted ∨
    (commitWrite mgr1 cs d md vk rAT).result.attributeStatus = .RebootRequired := by
  simp only [commitWrite]
  repeat' split
  all_goals simp

/-- C10: a validated Target set on a Persistent read-write variable is never
size-checked (the `TooLargeElement` gate is guarded on `Actual`), succeeds,
upserts the same configuration key an Actual write uses, and thereby
determines the value the resolver returns afterwards. -/
theorem setVariable_target_write (reg : Registry) (mgr : MgrState) (cs : ChargingStation)
    (d : SetVariableData) (md : VariableMetadata)
    (hat : d.attributeType = some .Target)
    (hc : isComponentValid d.component = true)
    (hmd : getVariableMetadata reg d.component.name d.var.name
      (orElseOpt d.var.inst d.component.inst) = some md)
    (hsup : md.supportedAttributes.contains .Target = true)
    (hrw : md.mutability = .ReadWrite)
    (hpers : md.persistence = .Persistent)
    (hnotauth : ¬ (d.component.name = "AuthCtrlr" ∧ d.var.name = "AuthorizeRemoteStart"))
    (hok : (validateValue md d.attributeValue).ok = true)
    (hoc : overridesCheck mgr md
      (buildCaseInsensitiveCompositeKey d.component.name d.component.inst d.var.name)
      d.attributeValue = none) :
    ((setVariable reg mgr cs d).result.attributeStatus = .Accepted ∨
     (setVariable reg mgr cs d).result.attributeStatus = .RebootRequired) ∧
    (getConfigurationKey (setVariable reg mgr cs d).station.configurationKeys
      (computeConfigurationKeyName md)).map ConfigurationKey.value = some d.attributeValue ∧
    (md.resolveHook = none → md.postProcessHook = none → ¬ d.attributeValue = "" →
      (resolveVariableValue reg (setVariable reg mgr cs d).mgr (setVariable reg mgr cs d).station
        d.component d.var).1 = d.attributeValue) := by
  have hv := isVariableSupported_of_metadata reg d.component d.var md hmd
  have hsupm : AttributeEnumType.Target ∈ md.supportedAttributes := by simpa using hsup
  have hbr : setVariable reg mgr cs d =
      setActual mgr cs d md
        (buildCaseInsensitiveCompositeKey d.component.name d.component.inst d.var.name) .Target := by
    simp [setVariable, hat, hc, hv, hmd, hsupm]
  have hrob : (md.mutability == MutabilityEnumType.ReadOnly) = false := by simp [hrw]
  have hbr2 : setActual mgr cs d md
      (buildCaseInsensitiveCompositeKey d.component.name d.component.inst d.var.name) .Target =
      commitWrite mgr cs d md
        (buildCaseInsensitiveCompositeKey d.component.name d.component.inst d.var.name) .Target := by
    simp [setActual, hrob, hnotauth, hok, hoc]
  rw [hbr, hbr2]
  have hwo : ¬ md.mutability = MutabilityEnumType.WriteOnly := by rw [hrw]; intro h; cases h
  refine ⟨commitWrite_status _ _ _ _ _ _, commitWrite_store _ _ _ _ _ _ hpers hwo, ?_⟩
  intro hhr hhp hxne
  obtain ⟨k', hk', hkv⟩ : ∃ k', getConfigurationKey
      (commitWrite mgr cs d md
        (buildCaseInsensitiveCompositeKey d.component.name d.component.inst d.var.name)
        .Target).station.configurationKeys (computeConfigurationKeyName md) = some k' ∧
      k'.value = d.attributeValue := by
    have hst := commitWrite_store mgr cs d md
      (buildCaseInsensitiveCompositeKey d.component.name d.component.inst d.var.name)
      .Target hpers hwo
    rcases hg : getConfigurationKey
        (commitWrite mgr cs d md
          (buildCaseInsensitiveCompositeKey d.component.name d.component.inst d.var.name)
          .Target).station.configurationKeys (computeConfigurationKeyName md) with _ | k'
    · rw [hg] at hst
      exact absurd hst (by simp)
    · rw [hg] at hst
      simp only [Option.map, Option.some.injEq] at hst
      exact ⟨k', rfl, hst⟩
  have hpb : (md.persistence == PersistenceEnumType.Persistent) = true := by simp [hpers]
  have hvol : (md.persistence == PersistenceEnumType.Volatile) = false := by simp [hpers]
  have hwb : (md.mutability == MutabilityEnumType.WriteOnly) = false := by simp [hwo]
  have hkvne : (k'.value == "") = false := by
    rw [hkv]
    simpa using hxne
  simp [resolveVariableValue, hmd, hpb, hvol, hwb, hk', hkvne, hkv,
    applyPostProcess, hhp, hxne]

/-- Sample registry entry supporting Target writes:
`TxCtrlr` / `EVConnectionTimeOut`. -/
def mdEVConnectionTimeOut : VariableMetadata :=
  { component := "TxCtrlr", var := "EVConnectionTimeOut", dataType := .integer,
    mutability := .ReadWrite, persistence := .Persistent,
    supportedAttributes := [.Actual, .Target], min := some 0,
    max := some 100000000000000, supportsTarget := true }

/-- A Target write of the 5-character value 12345 under a `ValueSize` of 3. -/
def targetOversizeData : SetVariableData :=
  { attributeType := some .Target, attributeValue := "12345",
    component := { name := "TxCtrlr" }, var := { name := "EVConnectionTimeOut" } }

/-- C10 witness: the Target-write theorem applied to an oversize value that
an Actual write would reject. -/
theorem setVariable_target_write_witness :
    ((setVariable [mdEVConnectionTimeOut] {} valueSize3Station targetOversizeData).result.attributeStatus =
        .Accepted ∨
      (setVariable [mdEVConnectionTimeOut] {} valueSize3Station targetOversizeData).result.attributeStatus =
        .RebootRequired) ∧
    (getConfigurationKey (setVariable [mdEVConnectionTimeOut] {} valueSize3Station
        targetOversizeData).station.configurationKeys
      (computeConfigurationKeyName mdEVConnectionTimeOut)).map ConfigurationKey.value =
        some "12345" ∧
    (mdEVConnectionTimeOut.resolveHook = none → mdEVConnectionTimeOut.postProcessHook = none →
      ¬ ("12345" : String) = "" →
      (resolveVariableValue [mdEVConnectionTimeOut]
        (setVariable [mdEVConnectionTimeOut] {} valueSize3Station targetOversizeData).mgr
        (setVariable [mdEVConnectionTimeOut] {} valueSize3Station targetOversizeData).station
        targetOversizeData.component targetOversizeData.var).1 = "12345") :=
  setVariable_target_write [mdEVConnectionTimeOut] {} valueSize3Station targetOversizeData
    mdEVConnectionTimeOut rfl (by decide) (by rfl) (by rfl) rfl rfl (by decide) (by decide)
    (by rfl)

/-! Claim C7: batch behaviour of `getVariables` / `setVariables`. -/

/-- Bound reads carry status info of at most 50 characters. -/
theorem getBoundRead_info_le (ovr : List (String × String)) (static : Option Int)
    (d : GetVariableData) (vk : String) (rAT : AttributeEnumType) (si : StatusInfoType)
    (h : (getBoundRead ovr static d vk rAT).attributeStatusInfo = some si) :
    si.additionalInfo.length ≤ 50 := by
  unfold getBoundRead at h
  split at h
  · exact rejectGet_info_le _ _ _ _ _ _ _ h
  · exact absurd h (by simp)

/-- Resolved reads carry status info of at most 50 characters. -/
theorem getResolvedRead_info_le (reg : Registry) (mgr : MgrState) (cs : ChargingStation)
    (d : GetVariableData) (md : VariableMetadata) (rAT : AttributeEnumType) (si : StatusInfoType)
    (h : (getResolvedRead reg mgr cs d md rAT).1.attributeStatusInfo = some si) :
    si.additionalInfo.length ≤ 50 := by
  unfold getResolvedRead at h
  repeat' split at h
  all_goals first
    | exact rejectGet_info_le _ _ _ _ _ _ _ h
    | exact absurd h (by simp)

/-- Every `getVariable` result carries status info of at most 50
characters. -/
theorem getVariable_info_le (reg : Registry) (mgr : MgrState) (cs : ChargingStation)
    (d : GetVariableData) (si : StatusInfoType)
    (h : (getVariable reg mgr cs d).1.attributeStatusInfo = some si) :
    si.additionalInfo.length ≤ 50 := by
  unfold getVariable at h
  repeat' split at h
  all_goals first
    | exact rejectGet_info_le _ _ _ _ _ _ _ h
    | exact getBoundRead_info_le _ _ _ _ _ _ h
    | exact getResolvedRead_info_le _ _ _ _ _ _ _ h
    | exact absurd h (by simp)

/-- The write phase carries status info of at most 50 characters. -/
theorem commitWrite_info_le (mgr1 : MgrState) (cs : ChargingStation) (d : SetVariableData)
    (md : VariableMetadata) (vk : String) (rAT : AttributeEnumType) (si : StatusInfoType)
    (h : (commitWrite mgr1 cs d md vk rAT).result.attributeStatusInfo = some si) :
    si.additionalInfo.length ≤ 50 := by
  simp only [commitWrite] at h
  repeat' split at h
  all_goals first
    | (injection h with h'; rw [← h']; decide)
    | exact absurd h (by simp)

/-- The bound-override branch carries status info of at most 50
characters. -/
theorem setBoundOverride_info_le (mgr1 : MgrState) (cs : ChargingStation) (d : SetVariableData)
    (md : VariableMetadata) (vk : String) (rAT : AttributeEnumType) (si : StatusInfoType)
    (h : (setBoundOverride mgr1 cs d md vk rAT).result.attributeStatusInfo = some si) :
    si.additionalInfo.length ≤ 50 := by
  simp only [setBoundOverride] at h
  repeat' split at h
  all_goals first
    | exact rejectSet_info_le _ _ _ _ _ _ _ h
    | exact absurd h (by simp)

/-- The `Actual`/`Target` branch carries status info of at most 50
characters. -/
theorem setActual_info_le (mgr1 : MgrState) (cs : ChargingStation) (d : SetVariableData)
    (md : VariableMetadata) (vk : String) (rAT : AttributeEnumType) (si : StatusInfoType)
    (h : (setActual mgr1 cs d md vk rAT).result.attributeStatusInfo = some si) :
    si.additionalInfo.length ≤ 50 := by
  simp only [setActual] at h
  repeat' split at h
  all_goals first
    | exact rejectSet_info_le _ _ _ _ _ _ _ h
    | exact commitWrite_info_le _ _ _ _ _ _ _ h
    | exact absurd h (by simp)

/-- Every `setVariable` result carries status info of at most 50
characters. -/
theorem setVariable_info_le (reg : Registry) (mgr : MgrState) (cs : ChargingStation)
    (d : SetVariableData) (si : StatusInfoType)
    (h : (setVariable reg mgr cs d).result.attributeStatusInfo = some si) :
    si.additionalInfo.length ≤ 50 := by
  simp only [setVariable] at h
  repeat' split at h
  all_goals first
    | exact rejectSet_info_le _ _ _ _ _ _ _ h
    | exact setBoundOverride_info_le _ _ _ _ _ _ _ h
    | exact setActual_info_le _ _ _ _ _ _ _ h
    | exact absurd h (by simp)

/-- The get loop yields one result per input item. -/
theorem getVariablesLoop_length
    (step : ChargingStation → GetVariableData → Except Unit (GetVariableResult × ChargingStation)) :
    ∀ (items : List GetVariableData) (cs : ChargingStation),
      ((getVariablesLoop step cs items).1).length = items.length := by
  intro items
  induction items with
  | nil => intro cs; rfl
  | cons d rest ih =>
    intro cs
    rcases hs : step cs d with e | p
    · simp [getVariablesLoop, hs, ih]
    · rcases p with ⟨r, cs'⟩
      simp [getVariablesLoop, hs, ih]

/-- The set loop yields one result per input item. -/
theorem setVariablesLoop_length
    (step : MgrState → ChargingStation → SetVariableData →
      Except Unit (SetVariableResult × MgrState × ChargingStation)) :
    ∀ (items : List SetVariableData) (mgr : MgrState) (cs : ChargingStation),
      ((setVariablesLoop step mgr cs items).1).length = items.length := by
  intro items
  induction items with
  | nil => intro mgr cs; rfl
  | cons d rest ih =>
    intro mgr cs
    rcases hs : step mgr cs d with e | p
    · simp [setVariablesLoop, hs, ih]
    · rcases p with ⟨r, mgr', cs'⟩
      simp [setVariablesLoop, hs, ih]

/-- Every result the real get step produces through the loop carries status
info of at most 50 characters. -/
theorem mem_getVariablesLoop_info_le (reg : Registry) (mgr : MgrState) :
    ∀ (items : List GetVariableData) (cs : ChargingStation) (r : GetVariableResult)
      (si : StatusInfoType),
      r ∈ (getVariablesLoop (getVariableStep reg mgr) cs items).1 →
      r.attributeStatusInfo = some si → si.additionalInfo.length ≤ 50 := by
  intro items
  induction items with
  | nil => intro cs r si hr; simp [getVariablesLoop] at hr
  | cons d rest ih =>
    intro cs r si hr hsi
    rcases hg : getVariable reg mgr cs d with ⟨r1, cs1⟩
    simp only [getVariablesLoop, getVariableStep, hg, List.mem_cons] at hr
    rcases hr with hr | hr
    · subst hr
      exact getVariable_info_le reg mgr cs d si (by rw [hg]; exact hsi)
    · exact ih cs1 r si hr hsi

/-- Every result the real set step produces through the loop carries status
info of at most 50 characters. -/
theorem mem_setVariablesLoop_info_le (reg : Registry) :
    ∀ (items : List SetVariableData) (mgr : MgrState) (cs : ChargingStation)
      (r : SetVariableResult) (si : StatusInfoType),
      r ∈ (setVariablesLoop (setVariableStep reg) mgr cs items).1 →
      r.attributeStatusInfo = some si → si.additionalInfo.length ≤ 50 := by
  intro items
  induction items with
  | nil => intro mgr cs r si hr; simp [setVariablesLoop] at hr
  | cons d rest ih =>
    intro mgr cs r si hr hsi
    simp only [setVariablesLoop, setVariableStep, List.mem_cons] at hr
    rcases hr with hr | hr
    · subst hr
      exact setVariable_info_le reg mgr cs d si hsi
    · exact ih _ _ r si hr hsi

/-- C7: `getVariables`/`setVariables` are total functions of the batch (no
exception escapes: a raised internal error is modelled as `Except.error`
and caught by the loop); each returns exactly one result per input item, in
input order; an item whose processing errors yields the catch-branch result
(status `Rejected`, reasonCode `InternalError`, generic info of at most 50
characters) while the remaining items are processed as if it had not been
there; and every status info attached to a result of the real batches is at
most 50 characters long. -/
theorem variables_batch_error_handling :
    (∀ (step : ChargingStation → GetVariableData →
          Except Unit (GetVariableResult × ChargingStation))
        (cs : ChargingStation) (items : List GetVariableData),
        ((getVariablesLoop step cs items).1).length = items.length) ∧
    (∀ (step : MgrState → ChargingStation → SetVariableData →
          Except Unit (SetVariableResult × MgrState × ChargingStation))
        (mgr : MgrState) (cs : ChargingStation) (items : List SetVariableData),
        ((setVariablesLoop step mgr cs items).1).length = items.length) ∧
    (∀ (reg : Registry) (mgr : MgrState) (cs : ChargingStation)
        (items : List GetVariableData),
        ((getVariables reg mgr cs items).1).length = items.length) ∧
    (∀ (reg : Registry) (mgr : MgrState) (cs : ChargingStation)
        (items : List SetVariableData),
        ((setVariables reg mgr cs items).1).length = items.length) ∧
    (∀ (step : ChargingStation → GetVariableData →
          Except Unit (GetVariableResult × ChargingStation))
        (cs : ChargingStation) (d : GetVariableData) (rest : List GetVariableData),
        step cs d = .error () →
        (getVariablesLoop step cs (d :: rest)).1 =
          mkGetInternalErrorResult d :: (getVariablesLoop step cs rest).1) ∧
    (∀ (step : ChargingStation → GetVariableData →
          Except Unit (GetVariableResult × ChargingStation))
        (cs : ChargingStation) (d : GetVariableData) (rest : List GetVariableData)
        (r : GetVariableResult) (cs' : ChargingStation),
        step cs d = .ok (r, cs') →
        (getVariablesLoop step cs (d :: rest)).1 =
          r :: (getVariablesLoop step cs' rest).1) ∧
    (∀ (step : MgrState → ChargingStation → SetVariableData →
          Except Unit (SetVariableResult × MgrState × ChargingStation))
        (mgr : MgrState) (cs : ChargingStation) (d : SetVariableData)
        (rest : List SetVariableData),
        step mgr cs d = .error () →
        (setVariablesLoop step mgr cs (d :: rest)).1 =
          mkSetInternalErrorResult d :: (setVariablesLoop step mgr cs rest).1) ∧
    (∀ (step : MgrState → ChargingStation → SetVariableData →
          Except Unit (SetVariableResult × MgrState × ChargingStation))
        (mgr : MgrState) (cs : ChargingStation) (d : SetVariableData)
        (rest : List SetVariableData) (r : SetVariableResult) (mgr' : MgrState)
        (cs' : ChargingStation),
        step mgr cs d = .ok (r, mgr', cs') →
        (setVariablesLoop step mgr cs (d :: rest)).1 =
          r :: (setVariablesLoop step mgr' cs' rest).1) ∧
    (∀ d : GetVariableData,
        (mkGetInternalErrorResult d).attributeStatus = .Rejected ∧
        ∃ si, (mkGetInternalErrorResult d).attributeStatusInfo = some si ∧
          si.reasonCode = .InternalError ∧ si.additionalInfo.length ≤ 50) ∧
    (∀ d : SetVariableData,
        (mkSetInternalErrorResult d).attributeStatus = .Rejected ∧
        ∃ si, (mkSetInternalErrorResult d).attributeStatusInfo = some si ∧
          si.reasonCode = .InternalError ∧ si.additionalInfo.length ≤ 50) ∧
    (∀ (reg : Registry) (mgr : MgrState) (cs : ChargingStation)
        (items : List GetVariableData) (r : GetVariableResult) (si : StatusInfoType),
        r ∈ (getVariables reg mgr cs items).1 →
        r.attributeStatusInfo = some si → si.additionalInfo.length ≤ 50) ∧
    (∀ (reg : Registry) (mgr : MgrState) (cs : ChargingStation)
        (items : List SetVariableData) (r : SetVariableResult) (si : StatusInfoType),
        r ∈ (setVariables reg mgr cs items).1 →
        r.attributeStatusInfo = some si → si.additionalInfo.length ≤ 50) := by
  refine ⟨?_, ?_, ?_, ?_, ?_, ?_, ?_, ?_, ?_, ?_, ?_, ?_⟩
  · intro step cs items; exact getVariablesLoop_length step items cs
  · intro step mgr cs items; exact setVariablesLoop_length step items mgr cs
  · intro reg mgr cs items
    simp only [getVariables]
    exact getVariablesLoop_length _ items _
  · intro reg mgr cs items
    simp only [setVariables]
    exact setVariablesLoop_length _ items _ _
  · intro step cs d rest h
    simp [getVariablesLoop, h]
  · intro step cs d rest r cs' h
    simp [getVariablesLoop, h]
  · intro step mgr cs d rest h
    simp [setVariablesLoop, h]
  · intro step mgr cs d rest r mgr' cs' h
    simp [setVariablesLoop, h]
  · intro d
    exact ⟨rfl, _, rfl, rfl, by decide⟩
  · intro d
    exact ⟨rfl, _, rfl, rfl, by decide⟩
  · intro reg mgr cs items r si hr hsi
    simp only [getVariables] at hr
    exact mem_getVariablesLoop_info_le _ _ items _ r si hr hsi
  · intro reg mgr cs items r si hr hsi
    simp only [setVariables] at hr
    exact mem_setVariablesLoop_info_le _ items _ _ r si hr hsi

/-- C7 witness: a step that errors on the sample read request makes the loop
emit exactly the catch-branch result and carry on; likewise for a write. -/
theorem variables_batch_error_handling_witness :
    (getVariablesLoop (fun _ _ => .error ()) sampleStation [hbReadData]).1 =
      mkGetInternalErrorResult hbReadData ::
        (getVariablesLoop (fun _ _ => .error ()) sampleStation []).1 ∧
    (setVariablesLoop (fun _ _ _ => .error ()) minSet30Mgr sampleStation [maxSet20Data]).1 =
      mkSetInternalErrorResult maxSet20Data ::
        (setVariablesLoop (fun _ _ _ => .error ()) minSet30Mgr sampleStation []).1 ∧
    (mkSetInternalErrorResult maxSet20Data).attributeStatus = .Rejected :=
  ⟨variables_batch_error_handling.2.2.2.2.1 (fun _ _ => .error ()) sampleStation
      hbReadData [] rfl,
    variables_batch_error_handling.2.2.2.2.2.2.1 (fun _ _ _ => .error ()) minSet30Mgr
      sampleStation maxSet20Data [] rfl,
    (variables_batch_error_handling.2.2.2.2.2.2.2.2.2.1 maxSet20Data).1⟩

/-! Claim C8: idempotence of `setVariable`. -/

/-- Appending an entry whose key does not match leaves a lookup unchanged. -/
theorem getConfigurationKey_append_single (keys : List ConfigurationKey)
    (e : ConfigurationKey) (name : String)
    (h : (lowerStr e.key == lowerStr name) = false) :
    getConfigurationKey (keys ++ [e]) name = getConfigurationKey keys name := by
  unfold getConfigurationKey
  induction keys with
  | nil => simp [List.find?, h]
  | cons a as ih =>
    simp only [List.cons_append, List.find?]
    split
    · rfl
    · exact ih

/-- Insertion under a different (lower-cased) key name leaves a lookup
unchanged. -/
theorem getConfigurationKey_add_ne (keys : List ConfigurationKey) (kn v name : String)
    (h : ¬ lowerStr kn = lowerStr name) :
    getConfigurationKey (addConfigurationKey keys kn v) name =
      getConfigurationKey keys name := by
  unfold addConfigurationKey
  split
  · rfl
  · exact getConfigurationKey_append_single keys _ name (by simp [h])

/-- Update under a different (lower-cased) key name leaves a lookup
unchanged. -/
theorem getConfigurationKey_setValue_ne (keys : List ConfigurationKey) (kn v name : String)
    (h : ¬ lowerStr kn = lowerStr name) :
    getConfigurationKey (setConfigurationKeyValue keys kn v) name =
      getConfigurationKey keys name := by
  unfold setConfigurationKeyValue getConfigurationKey
  induction keys with
  | nil => rfl
  | cons a as ih =>
    by_cases ha : lowerStr a.key = lowerStr kn
    · have hpa : (lowerStr a.key == lowerStr name) = false := by
        simp [ha, h]
      have hb : (lowerStr a.key == lowerStr kn) = true := by simp [ha]
      simp only [List.map, List.find?, hb, if_true, hpa]
      exact ih
    · have hb : (lowerStr a.key == lowerStr kn) = false := by simp [ha]
      simp only [List.map, List.find?, hb, Bool.false_eq_true, if_false]
      split
      · rfl
      · exact ih

/-- The effective size limit depends only on the two invalid-set flags and
the two size-key lookups. -/
theorem effectiveSizeLimit_congr (inv inv' : List String)
    (keys keys' : List ConfigurationKey)
    (h1 : inv'.contains configurationValueSizeKey = inv.contains configurationValueSizeKey)
    (h2 : inv'.contains valueSizeKey = inv.contains valueSizeKey)
    (h3 : getConfigurationKey keys' "ConfigurationValueSize" =
      getConfigurationKey keys "ConfigurationValueSize")
    (h4 : getConfigurationKey keys' "ValueSize" = getConfigurationKey keys "ValueSize") :
    effectiveSizeLimit inv' keys' = effectiveSizeLimit inv keys := by
  simp only [effectiveSizeLimit, h1, h2, h3, h4]

/-- The dynamic override check depends only on the two bound override
maps. -/
theorem overridesCheck_congr (mgr1 mgr1' : MgrState) (md : VariableMetadata) (vk x : String)
    (hmin : mgr1'.minSetOverrides = mgr1.minSetOverrides)
    (hmax : mgr1'.maxSetOverrides = mgr1.maxSetOverrides) :
    overridesCheck mgr1' md vk x = overridesCheck mgr1 md vk x := by
  simp only [overridesCheck, hmin, hmax]

/-- The write phase changes the store only at the written key name. -/
theorem commitWrite_lookup_ne (mgr1 : MgrState) (cs : ChargingStation) (d : SetVariableData)
    (md : VariableMetadata) (vk : String) (rAT : AttributeEnumType) (name : String)
    (h : ¬ lowerStr (computeConfigurationKeyName md) = lowerStr name) :
    getConfigurationKey (commitWrite mgr1 cs d md vk rAT).station.configurationKeys name =
      getConfigurationKey cs.configurationKeys name := by
  simp only [commitWrite]
  repeat' split
  all_goals first
    | rfl
    | exact getConfigurationKey_add_ne cs.configurationKeys _ _ name h
    | exact getConfigurationKey_setValue_ne cs.configurationKeys _ _ name h

/-- A write whose key already stores the written value is `Accepted` (the
reboot flag compares against the previous value). -/
theorem commitWrite_prev_accepted (mgr1 : MgrState) (cs : ChargingStation)
    (d : SetVariableData) (md : VariableMetadata) (vk : String) (rAT : AttributeEnumType)
    (h : (getConfigurationKey cs.configurationKeys (computeConfigurationKeyName md)).map
      ConfigurationKey.value = some d.attributeValue) :
    (commitWrite mgr1 cs d md vk rAT).result.attributeStatus = .Accepted := by
  simp only [commitWrite, h]
  simp

/-- A non-persistent (or write-only) write is always `Accepted`. -/
theorem commitWrite_nonpersistent_accepted (mgr1 : MgrState) (cs : ChargingStation)
    (d : SetVariableData) (md : VariableMetadata) (vk : String) (rAT : AttributeEnumType)
    (h : (md.persistence == PersistenceEnumType.Persistent &&
      !(md.mutability == MutabilityEnumType.WriteOnly)) = false) :
    (commitWrite mgr1 cs d md vk rAT).result.attributeStatus = .Accepted := by
  simp only [commitWrite, h]
  simp

/-- A station with an empty ConfigurationKey Store. -/
def emptyKeysStation : ChargingStation := { configurationKeys := [] }

/-- Sample registry entry whose writes require a reboot
(`rebootRequired = true`). -/
def mdRebootDemo : VariableMetadata :=
  { component := "TxCtrlr", var := "TxStartPoint", dataType := .integer,
    mutability := .ReadWrite, persistence := .Persistent,
    supportedAttributes := [.Actual], rebootRequired := true }

/-- An Actual write of `10` to the reboot-required variable. -/
def rebootDemoData : SetVariableData :=
  { attributeType := some .Actual, attributeValue := "10",
    component := { name := "TxCtrlr" }, var := { name := "TxStartPoint" } }

/-- Registry entry for the `DeviceDataCtrlr` `ValueSize` size-control
variable. -/
def mdValueSizeEntry : VariableMetadata :=
  { component := "DeviceDataCtrlr", var := "ValueSize", dataType := .integer,
    mutability := .ReadWrite, persistence := .Persistent,
    supportedAttributes := [.Actual] }

/-- An Actual write of the 5-character value `00001` to `ValueSize`. -/
def valueSizeWriteData : SetVariableData :=
  { attributeType := some .Actual, attributeValue := "00001",
    component := { name := "DeviceDataCtrlr" }, var := { name := "ValueSize" } }

/-- C8 (refuted as stated): a validated write to a reboot-required variable
returns `RebootRequired`, not `Accepted`, on the first call already; and for
the size-control variable `ValueSize` the accepted 5-character write `00001`
shrinks the effective size limit to 1, so the identical second call is
`Rejected` / `TooLargeElement`. -/
theorem setVariable_idempotence_counterexample :
    ((setVariable [mdRebootDemo] {} emptyKeysStation rebootDemoData).result.attributeStatus =
        SetVariableStatusEnumType.RebootRequired ∧
      ¬ (setVariable [mdRebootDemo] {} emptyKeysStation rebootDemoData).result.attributeStatus =
        SetVariableStatusEnumType.Accepted) ∧
    ((setVariable [mdValueSizeEntry] {} emptyKeysStation valueSizeWriteData).result.attributeStatus =
        SetVariableStatusEnumType.Accepted ∧
      (setVariable [mdValueSizeEntry]
          (setVariable [mdValueSizeEntry] {} emptyKeysStation valueSizeWriteData).mgr
          (setVariable [mdValueSizeEntry] {} emptyKeysStation valueSizeWriteData).station
          valueSizeWriteData).result.attributeStatus = SetVariableStatusEnumType.Rejected ∧
      (setVariable [mdValueSizeEntry]
          (setVariable [mdValueSizeEntry] {} emptyKeysStation valueSizeWriteData).mgr
          (setVariable [mdValueSizeEntry] {} emptyKeysStation valueSizeWriteData).station
          valueSizeWriteData).result.attributeStatusInfo.map StatusInfoType.reasonCode =
        some ReasonCodeEnumType.TooLargeElement) := by
  decide

/-- C8 (amended): for a writable non-size-control variable with a healthy
mapping, a validated `Actual`/`Target` write that passes the size check and
the override check succeeds (`Accepted` or `RebootRequired`), and the
identical second call returns `Accepted` — in particular never
`RebootRequired` (the first write installed the value, so the reboot flag's
previous-value comparison succeeds; the size lookups and override maps are
untouched because the variable is not `ValueSize`/`ConfigurationValueSize`
and the branch writes no bound override). -/
theorem setVariable_repeat_accepted (reg : Registry) (mgr : MgrState) (cs : ChargingStation)
    (d : SetVariableData) (md : VariableMetadata) (rAT : AttributeEnumType) (vk : String)
    (hat : d.attributeType.getD .Actual = rAT)
    (hvk : buildCaseInsensitiveCompositeKey d.component.name d.component.inst d.var.name = vk)
    (hc : isComponentValid d.component = true)
    (hmd : getVariableMetadata reg d.component.name d.var.name
      (orElseOpt d.var.inst d.component.inst) = some md)
    (hsupb : md.supportedAttributes.contains rAT = true)
    (hbn1 : ¬ rAT = .MinSet) (hbn2 : ¬ rAT = .MaxSet)
    (hflag : mgr.invalidVariables.contains vk = false)
    (hro : ¬ md.mutability = .ReadOnly)
    (hnotauth : ¬ (d.component.name = "AuthCtrlr" ∧ d.var.name = "AuthorizeRemoteStart"))
    (hok : (validateValue md d.attributeValue).ok = true)
    (hoc : overridesCheck mgr md vk d.attributeValue = none)
    (hsz : rAT = .Actual →
      d.attributeValue.length ≤ effectiveSizeLimit mgr.invalidVariables cs.configurationKeys)
    (hkn1 : ¬ lowerStr (computeConfigurationKeyName md) = lowerStr "ValueSize")
    (hkn2 : ¬ lowerStr (computeConfigurationKeyName md) = lowerStr "ConfigurationValueSize") :
    ((setVariable reg mgr cs d).result.attributeStatus = .Accepted ∨
     (setVariable reg mgr cs d).result.attributeStatus = .RebootRequired) ∧
    (setVariable reg (setVariable reg mgr cs d).mgr
      (setVariable reg mgr cs d).station d).result.attributeStatus = .Accepted ∧
    ¬ (setVariable reg (setVariable reg mgr cs d).mgr
      (setVariable reg mgr cs d).station d).result.attributeStatus = .RebootRequired := by
  have hv := isVariableSupported_of_metadata reg d.component d.var md hmd
  have hsupm : rAT ∈ md.supportedAttributes := by simpa using hsupb
  have hflagm : vk ∉ mgr.invalidVariables := by simpa using hflag
  have hszb : ((rAT == AttributeEnumType.Actual) &&
      decide (d.attributeValue.length >
        effectiveSizeLimit mgr.invalidVariables cs.configurationKeys)) = false := by
    rcases hA : rAT == AttributeEnumType.Actual with _ | _
    · simp
    · have hAe : rAT = .Actual := by simpa using hA
      have hle := hsz hAe
      simp [Nat.not_lt.mpr hle]
  have hbr : setVariable reg mgr cs d = setActual mgr cs d md vk rAT := by
    simp [setVariable, hat, hvk, hc, hv, hmd, hsupb, hsupm, hflag, hflagm, hbn1, hbn2]
  have hbr2 : setActual mgr cs d md vk rAT = commitWrite mgr cs d md vk rAT := by
    simp [setActual, hro, hszb, hnotauth, hok, hoc]
  have hcf := commitWrite_frame mgr cs d md vk rAT
  have hflag2 : (commitWrite mgr cs d md vk rAT).mgr.invalidVariables.contains vk = false := by
    rw [hcf.1]; exact hflag
  have hflag2m : vk ∉ (commitWrite mgr cs d md vk rAT).mgr.invalidVariables := by
    rw [hcf.1]; exact hflagm
  have hlook1 : getConfigurationKey
      (commitWrite mgr cs d md vk rAT).station.configurationKeys "ValueSize" =
      getConfigurationKey cs.configurationKeys "ValueSize" :=
    commitWrite_lookup_ne mgr cs d md vk rAT "ValueSize" hkn1
  have hlook2 : getConfigurationKey
      (commitWrite mgr cs d md vk rAT).station.configurationKeys "ConfigurationValueSize" =
      getConfigurationKey cs.configurationKeys "ConfigurationValueSize" :=
    commitWrite_lookup_ne mgr cs d md vk rAT "ConfigurationValueSize" hkn2
  have hlim : effectiveSizeLimit (commitWrite mgr cs d md vk rAT).mgr.invalidVariables
      (commitWrite mgr cs d md vk rAT).station.configurationKeys =
      effectiveSizeLimit mgr.invalidVariables cs.configurationKeys :=
    effectiveSizeLimit_congr mgr.invalidVariables _ cs.configurationKeys _
      (by rw [hcf.1]) (by rw [hcf.1]) hlook2 hlook1
  have hoc2 : overridesCheck (commitWrite mgr cs d md vk rAT).mgr md vk d.attributeValue =
      none := by
    rw [overridesCheck_congr mgr _ md vk d.attributeValue hcf.2.1 hcf.2.2]
    exact hoc
  have hszb2 : ((rAT == AttributeEnumType.Actual) &&
      decide (d.attributeValue.length >
        effectiveSizeLimit (commitWrite mgr cs d md vk rAT).mgr.invalidVariables
          (commitWrite mgr cs d md vk rAT).station.configurationKeys)) = false := by
    rw [hlim]; exact hszb
  have hbr' : setVariable reg (commitWrite mgr cs d md vk rAT).mgr
      (commitWrite mgr cs d md vk rAT).station d =
      setActual (commitWrite mgr cs d md vk rAT).mgr
        (commitWrite mgr cs d md vk rAT).station d md vk rAT := by
    simp [setVariable, hat, hvk, hc, hv, hmd, hsupb, hsupm, hflag2, hflag2m, hbn1, hbn2]
  have hbr2' : setActual (commitWrite mgr cs d md vk rAT).mgr
      (commitWrite mgr cs d md vk rAT).station d md vk rAT =
      commitWrite (commitWrite mgr cs d md vk rAT).mgr
        (commitWrite mgr cs d md vk rAT).station d md vk rAT := by
    simp [setActual, hro, hszb2, hnotauth, hok, hoc2]
  have hacc : (commitWrite (commitWrite mgr cs d md vk rAT).mgr
      (commitWrite mgr cs d md vk rAT).station d md vk rAT).result.attributeStatus =
      .Accepted := by
    by_cases hp : md.persistence = .Persistent
    · by_cases hw : md.mutability = .WriteOnly
      · exact commitWrite_nonpersistent_accepted _ _ _ _ _ _ (by simp [hw])
      · exact commitWrite_prev_accepted _ _ _ _ _ _
          (commitWrite_store mgr cs d md vk rAT hp hw)
    · exact commitWrite_nonpersistent_accepted _ _ _ _ _ _ (by simp [hp])
  refine ⟨?_, ?_, ?_⟩
  · rw [hbr, hbr2]
    exact commitWrite_status _ _ _ _ _ _
  · rw [hbr, hbr2, hbr', hbr2']
    exact hacc
  · rw [hbr, hbr2, hbr', hbr2', hacc]
    decide

/-- An Actual write of `120` to `HeartbeatInterval`. -/
def hbRepeatData : SetVariableData :=
  { attributeType := some .Actual, attributeValue := "120",
    component := { name := "OCPPCommCtrlr" }, var := { name := "HeartbeatInterval" } }

/-- C8 witness: the amended idempotence theorem applied to a concrete
repeated `HeartbeatInterval` write. -/
theorem setVariable_repeat_accepted_witness :
    ((setVariable [mdHeartbeatInterval] {} sampleStation hbRepeatData).result.attributeStatus =
        .Accepted ∨
      (setVariable [mdHeartbeatInterval] {} sampleStation hbRepeatData).result.attributeStatus =
        .RebootRequired) ∧
    (setVariable [mdHeartbeatInterval]
      (setVariable [mdHeartbeatInterval] {} sampleStation hbRepeatData).mgr
      (setVariable [mdHeartbeatInterval] {} sampleStation hbRepeatData).station
      hbRepeatData).result.attributeStatus = .Accepted ∧
    ¬ (setVariable [mdHeartbeatInterval]
      (setVariable [mdHeartbeatInterval] {} sampleStation hbRepeatData).mgr
      (setVariable [mdHeartbeatInterval] {} sampleStation hbRepeatData).station
      hbRepeatData).result.attributeStatus = .RebootRequired :=
  setVariable_repeat_accepted [mdHeartbeatInterval] {} sampleStation hbRepeatData
    mdHeartbeatInterval .Actual
    (buildCaseInsensitiveCompositeKey "OCPPCommCtrlr" none "HeartbeatInterval")
    rfl rfl (by decide) (by rfl) (by decide) (by decide) (by decide) (by rfl)
    (by decide) (by decide) (by decide) (by rfl) (by decide) (by decide) (by decide)

/-! Claim C2: the startup self-check (`validatePersistentMappings`). -/

/-- A registry entry whose key the self-check materializes when missing:
persistent, not write-only, not a size-control variable, instance-free,
with a default. -/
def insertable (md : VariableMetadata) : Bool :=
  isCheckedEntry md && !isSizeControlVariable md.var && (md.inst == none) &&
    md.defaultValue.isSome

/-- A registry entry the self-check marks invalid when its key is missing:
as above but without a default. -/
def markable (md : VariableMetadata) : Bool :=
  isCheckedEntry md && !isSizeControlVariable md.var && (md.inst == none) &&
    md.defaultValue.isNone

/-- The invalid-marking decision of one self-check iteration, taken against a
fixed store (used to characterize the loop once the store is stable). -/
def marksAgainst (keys : List ConfigurationKey) (inv : List String)
    (md : VariableMetadata) : List String :=
  if !isCheckedEntry md then inv
  else
    match getConfigurationKey keys (computeConfigurationKeyName md) with
    | some _ => inv
    | none =>
      if isSizeControlVariable md.var then inv
      else if !(md.inst == none) then inv
      else
        match md.defaultValue with
        | some _ => inv
        | none => addToSet inv (buildCaseInsensitiveCompositeKey md.component md.inst md.var)

/-- A successful `find?` is preserved by appending. -/
theorem find?_append_of_some {α : Type} (p : α → Bool) :
    ∀ (l1 l2 : List α) (x : α), l1.find? p = some x → (l1 ++ l2).find? p = some x := by
  intro l1
  induction l1 with
  | nil => intro l2 x h; exact absurd h (by simp)
  | cons a as ih =>
    intro l2 x h
    rcases hp : p a with _ | _
    · simp only [List.find?, hp] at h
      simp only [List.cons_append, List.find?, hp]
      exact ih l2 x h
    · simp only [List.find?, hp] at h
      simp only [List.cons_append, List.find?, hp]
      exact h

/-- Insertion preserves successful lookups. -/
theorem getConfigurationKey_add_mono (keys : List ConfigurationKey) (kn v name : String)
    (k : ConfigurationKey) (h : getConfigurationKey keys name = some k) :
    getConfigurationKey (addConfigurationKey keys kn v) name = some k := by
  unfold addConfigurationKey
  split
  · exact h
  · exact find?_append_of_some _ keys _ k h

/-- The element just added to a set is a member. -/
theorem mem_addToSet_self (l : List String) (k : String) : k ∈ addToSet l k := by
  unfold addToSet
  split
  · rename_i h
    simpa using h
  · simp

/-- Set insertion preserves membership. -/
theorem mem_addToSet_of_mem (l : List String) (k x : String) (h : x ∈ l) :
    x ∈ addToSet l k := by
  unfold addToSet
  split
  · exact h
  · exact List.mem_append_left _ h

/-- Case analysis of one self-check iteration: either the accumulator is
unchanged (and an insertable or markable entry then already found its key),
or an insertable entry inserts its default, or a markable entry marks its
composite key. -/
theorem validateStep_cases (acc : List String × List ConfigurationKey)
    (md : VariableMetadata) :
    (validateStep acc md = acc ∧
      (insertable md = true →
        (getConfigurationKey acc.2 (computeConfigurationKeyName md)).isSome = true) ∧
      (markable md = true →
        (getConfigurationKey acc.2 (computeConfigurationKeyName md)).isSome = true)) ∨
    (insertable md = true ∧
      getConfigurationKey acc.2 (computeConfigurationKeyName md) = none ∧
      ∃ dv, md.defaultValue = some dv ∧
        validateStep acc md =
          (acc.1, addConfigurationKey acc.2 (computeConfigurationKeyName md) dv)) ∨
    (markable md = true ∧
      getConfigurationKey acc.2 (computeConfigurationKeyName md) = none ∧
      validateStep acc md =
        (addToSet acc.1 (buildCaseInsensitiveCompositeKey md.component md.inst md.var),
          acc.2)) := by
  rcases hch : isCheckedEntry md with _ | _
  · exact Or.inl ⟨by simp [validateStep, hch], by simp [insertable, hch],
      by simp [markable, hch]⟩
  · rcases hlk : getConfigurationKey acc.2 (computeConfigurationKeyName md) with _ | k
    · rcases hsz : isSizeControlVariable md.var with _ | _
      · rcases hin : (md.inst == none) with _ | _
        · exact Or.inl ⟨by simp [validateStep, hch, hlk, hsz, hin],
            by simp [insertable, hin], by simp [markable, hin]⟩
        · rcases hdv : md.defaultValue with _ | dv
          · refine Or.inr (Or.inr ⟨?_, rfl, ?_⟩)
            · simp [markable, isCheckedEntry, hch, hsz, hin, hdv]
              simp [isCheckedEntry] at hch
              simp [hch]
            · simp [validateStep, hch, hlk, hsz, hin, hdv]
          · refine Or.inr (Or.inl ⟨?_, rfl, dv, rfl, ?_⟩)
            · simp [insertable, isCheckedEntry, hch, hsz, hin, hdv]
              simp [isCheckedEntry] at hch
              simp [hch]
            · simp [validateStep, hch, hlk, hsz, hin, hdv]
      · exact Or.inl ⟨by simp [validateStep, hch, hlk, hsz],
          by simp [insertable, hsz], by simp [markable, hsz]⟩
    · exact Or.inl ⟨by simp [validateStep, hch, hlk], by simp [hlk],
        by simp [hlk]⟩

/-- The self-check loop never loses a stored key. -/
theorem getConfigurationKey_foldl_mono :
    ∀ (reg : Registry) (acc : List String × List ConfigurationKey) (name : String)
      (k : ConfigurationKey),
      getConfigurationKey acc.2 name = some k →
      getConfigurationKey (List.foldl validateStep acc reg).2 name = some k := by
  intro reg
  induction reg with
  | nil => intro acc name k h; exact h
  | cons a rest ih =>
    intro acc name k h
    simp only [List.foldl]
    apply ih
    rcases validateStep_cases acc a with ⟨hc, _, _⟩ | ⟨_, _, dv, _, hc⟩ | ⟨_, _, hc⟩
    · rw [hc]; exact h
    · rw [hc]; exact getConfigurationKey_add_mono acc.2 _ dv name k h
    · rw [hc]; exact h

/-- The self-check loop never introduces a key whose (lower-cased) name is
not the key name of an insertable registry entry. -/
theorem getConfigurationKey_foldl_none :
    ∀ (reg : Registry) (acc : List String × List ConfigurationKey) (name : String),
      getConfigurationKey acc.2 name = none →
      (∀ md, md ∈ reg → insertable md = true →
        ¬ lowerStr (computeConfigurationKeyName md) = lowerStr name) →
      getConfigurationKey (List.foldl validateStep acc reg).2 name = none := by
  intro reg
  induction reg with
  | nil => intro acc name h _; exact h
  | cons a rest ih =>
    intro acc name h hni
    simp only [List.foldl]
    refine ih (validateStep acc a) name ?_ ?_
    · rcases validateStep_cases acc a with ⟨hc, _, _⟩ | ⟨hia, _, dv, _, hc⟩ | ⟨_, _, hc⟩
      · rw [hc]; exact h
      · rw [hc]
        have hne := getConfigurationKey_add_ne acc.2 (computeConfigurationKeyName a) dv name
          (hni a (List.mem_cons_self a rest) hia)
        exact hne.trans h
      · rw [hc]; exact h
    · intro md hmd hins
      exact hni md (List.mem_cons_of_mem a hmd) hins

/-- Once marked invalid, a composite key stays in the invalid set for the
rest of the loop. -/
theorem mem_foldl_validateStep_of_mem :
    ∀ (reg : Registry) (acc : List String × List ConfigurationKey) (x : String),
      x ∈ acc.1 → x ∈ (List.foldl validateStep acc reg).1 := by
  intro reg
  induction reg with
  | nil => intro acc x h; exact h
  | cons a rest ih =>
    intro acc x h
    simp only [List.foldl]
    apply ih
    rcases validateStep_cases acc a with ⟨hc, _, _⟩ | ⟨_, _, dv, _, hc⟩ | ⟨_, _, hc⟩
    · rw [hc]; exact h
    · rw [hc]; exact h
    · rw [hc]; exact mem_addToSet_of_mem acc.1 _ x h

/-- After the self-check loop, every insertable entry's configuration key is
present. -/
theorem insertable_key_present :
    ∀ (reg : Registry) (acc : List String × List ConfigurationKey) (md : VariableMetadata),
      md ∈ reg → insertable md = true →
      (getConfigurationKey (List.foldl validateStep acc reg).2
        (computeConfigurationKeyName md)).isSome = true := by
  intro reg
  induction reg with
  | nil => intro acc md hmem; exact absurd hmem (by simp)
  | cons a rest ih =>
    intro acc md hmem hins
    rcases List.mem_cons.mp hmem with rfl | hmem'
    · simp only [List.foldl]
      rcases validateStep_cases acc md with ⟨hc, hi, _⟩ | ⟨_, hlk, dv, hdv, hc⟩ | ⟨hma, _, _⟩
      · rw [hc]
        have := hi hins
        rcases hk : getConfigurationKey acc.2 (computeConfigurationKeyName md) with _ | k
        · rw [hk] at this; exact absurd this (by simp)
        · rw [getConfigurationKey_foldl_mono rest acc _ k hk]
          rfl
      · have hself := getConfigurationKey_add_self acc.2 (computeConfigurationKeyName md) dv hlk
        rw [hc]
        have := getConfigurationKey_foldl_mono rest
          (acc.1, addConfigurationKey acc.2 (computeConfigurationKeyName md) dv)
          (computeConfigurationKeyName md) { key := computeConfigurationKeyName md, value := dv }
          hself
        rw [this]
        rfl
      · rcases hdv : md.defaultValue with _ | dv
        · simp [insertable, hdv] at hins
        · simp [markable, hdv] at hma
    · simp only [List.foldl]
      exact ih (validateStep acc a) md hmem' hins

/-- After the self-check loop, a markable entry whose key is still missing
from the final store has been marked invalid. -/
theorem markable_marked :
    ∀ (reg : Registry) (acc : List String × List ConfigurationKey) (md : VariableMetadata),
      md ∈ reg → markable md = true →
      getConfigurationKey (List.foldl validateStep acc reg).2
        (computeConfigurationKeyName md) = none →
      buildCaseInsensitiveCompositeKey md.component md.inst md.var ∈
        (List.foldl validateStep acc reg).1 := by
  intro reg
  induction reg with
  | nil => intro acc md hmem; exact absurd hmem (by simp)
  | cons a rest ih =>
    intro acc md hmem hma hnone
    rcases List.mem_cons.mp hmem with rfl | hmem'
    · simp only [List.foldl] at hnone ⊢
      rcases validateStep_cases acc md with ⟨hc, _, hm⟩ | ⟨hia, _, _, _, _⟩ | ⟨_, _, hc⟩
      · rw [hc] at hnone ⊢
        have := hm hma
        rcases hk : getConfigurationKey acc.2 (computeConfigurationKeyName md) with _ | k
        · rw [hk] at this; exact absurd this (by simp)
        · rw [getConfigurationKey_foldl_mono rest acc _ k hk] at hnone
          exact absurd hnone (by simp)
      · rcases hdv : md.defaultValue with _ | dv
        · simp [insertable, hdv] at hia
        · simp [markable, hdv] at hma
      · rw [hc]
        exact mem_foldl_validateStep_of_mem rest _ _
          (mem_addToSet_self acc.1 _)
    · simp only [List.foldl] at hnone ⊢
      exact ih (validateStep acc a) md hmem' hma hnone

/-- Against a store that already holds every insertable entry's key, one
self-check iteration leaves the store unchanged and computes its marks
against that fixed store. -/
theorem validateStep_eq_marksAgainst (inv : List String) (keys : List ConfigurationKey)
    (a : VariableMetadata)
    (hins : insertable a = true →
      (getConfigurationKey keys (computeConfigurationKeyName a)).isSome = true) :
    validateStep (inv, keys) a = (marksAgainst keys inv a, keys) := by
  rcases hch : isCheckedEntry a with _ | _
  · simp [validateStep, marksAgainst, hch]
  · rcases hlk : getConfigurationKey keys (computeConfigurationKeyName a) with _ | k
    · rcases hsz : isSizeControlVariable a.var with _ | _
      · rcases hin : (a.inst == none) with _ | _
        · simp [validateStep, marksAgainst, hch, hlk, hsz, hin]
        · rcases hdv : a.defaultValue with _ | dv
          · simp [validateStep, marksAgainst, hch, hlk, hsz, hin, hdv]
          · have hia : insertable a = true := by
              simp [insertable, hch, hsz, hin, hdv]
            have h2 := hins hia
            rw [hlk] at h2
            exact absurd h2 (by simp)
      · simp [validateStep, marksAgainst, hch, hlk, hsz]
    · simp [validateStep, marksAgainst, hch, hlk]

/-- Against a store that already holds every insertable entry's key, the
self-check loop leaves the store unchanged and rebuilds the invalid set by
marking against that fixed store. -/
theorem foldl_validateStep_stable :
    ∀ (reg : List VariableMetadata) (inv : List String) (keys : List ConfigurationKey),
      (∀ md, md ∈ reg → insertable md = true →
        (getConfigurationKey keys (computeConfigurationKeyName md)).isSome = true) →
      List.foldl validateStep (inv, keys) reg =
        (List.foldl (marksAgainst keys) inv reg, keys) := by
  intro reg
  induction reg with
  | nil => intro inv keys _; rfl
  | cons a rest ih =>
    intro inv keys hins
    simp only [List.foldl]
    rw [validateStep_eq_marksAgainst inv keys a (hins a (List.mem_cons_self a rest))]
    exact ih (marksAgainst keys inv a) keys
      (fun md hmd hi => hins md (List.mem_cons_of_mem a hmd) hi)

/-- A non-markable entry never adds a mark, whatever the store. -/
theorem marksAgainst_eq_inv_of_not_markable (keys : List ConfigurationKey)
    (inv : List String) (a : VariableMetadata) (h : markable a = false) :
    marksAgainst keys inv a = inv := by
  unfold marksAgainst
  repeat' split
  all_goals simp_all [markable]

/-- A markable entry whose key is missing from the given store adds its
composite key. -/
theorem marksAgainst_eq_add (keys : List ConfigurationKey) (inv : List String)
    (a : VariableMetadata) (hch : isCheckedEntry a = true)
    (hlk : getConfigurationKey keys (computeConfigurationKeyName a) = none)
    (hsz : isSizeControlVariable a.var = false) (hin : (a.inst == none) = true)
    (hdv : a.defaultValue = none) :
    marksAgainst keys inv a =
      addToSet inv (buildCaseInsensitiveCompositeKey a.component a.inst a.var) := by
  simp [marksAgainst, hch, hlk, hsz, hin, hdv]

/-- An entry whose key is present in the given store never adds a mark. -/
theorem marksAgainst_eq_inv_of_some (keys : List ConfigurationKey) (inv : List String)
    (a : VariableMetadata) (k : ConfigurationKey)
    (hk : getConfigurationKey keys (computeConfigurationKeyName a) = some k) :
    marksAgainst keys inv a = inv := by
  unfold marksAgainst
  split
  · rfl
  · rw [hk]

/-- Under the no-clash hypothesis (no markable entry shares its lower-cased
key name with an insertable entry), the invalid set the self-check loop
builds equals the marks taken against the loop's FINAL store. -/
theorem foldl_validateStep_final_marks :
    ∀ (reg : List VariableMetadata) (inv : List String) (keys : List ConfigurationKey),
      (∀ mdN mdD, mdN ∈ reg → mdD ∈ reg → markable mdN = true → insertable mdD = true →
        ¬ lowerStr (computeConfigurationKeyName mdN) =
          lowerStr (computeConfigurationKeyName mdD)) →
      (List.foldl validateStep (inv, keys) reg).1 =
        List.foldl (marksAgainst (List.foldl validateStep (inv, keys) reg).2) inv reg := by
  intro reg
  induction reg with
  | nil => intro inv keys _; rfl
  | cons a rest ih =>
    intro inv keys H
    have Hrest : ∀ mdN mdD, mdN ∈ rest → mdD ∈ rest → markable mdN = true →
        insertable mdD = true →
        ¬ lowerStr (computeConfigurationKeyName mdN) =
          lowerStr (computeConfigurationKeyName mdD) :=
      fun mdN mdD h1 h2 => H mdN mdD (List.mem_cons_of_mem a h1) (List.mem_cons_of_mem a h2)
    simp only [List.foldl]
    rcases hch : isCheckedEntry a with _ | _
    · have hstep : validateStep (inv, keys) a = (inv, keys) := by simp [validateStep, hch]
      rw [hstep]
      rw [marksAgainst_eq_inv_of_not_markable _ _ _ (by simp [markable, hch])]
      exact ih inv keys Hrest
    · rcases hlk : getConfigurationKey keys (computeConfigurationKeyName a) with _ | k
      · rcases hsz : isSizeControlVariable a.var with _ | _
        · rcases hin : (a.inst == none) with _ | _
          · have hstep : validateStep (inv, keys) a = (inv, keys) := by
              simp [validateStep, hch, hlk, hsz, hin]
            rw [hstep]
            rw [marksAgainst_eq_inv_of_not_markable _ _ _ (by simp [markable, hin])]
            exact ih inv keys Hrest
          · rcases hdv : a.defaultValue with _ | dv
            · have hmaA : markable a = true := by simp [markable, hch, hsz, hin, hdv]
              have hstep : validateStep (inv, keys) a =
                  (addToSet inv (buildCaseInsensitiveCompositeKey a.component a.inst a.var),
                    keys) := by
                simp [validateStep, hch, hlk, hsz, hin, hdv]
              rw [hstep]
              have hnoneF : getConfigurationKey
                  (List.foldl validateStep
                    (addToSet inv (buildCaseInsensitiveCompositeKey a.component a.inst a.var),
                      keys) rest).2
                  (computeConfigurationKeyName a) = none :=
                getConfigurationKey_foldl_none rest _ _ hlk
                  (fun md hm hi heq =>
                    H a md (List.mem_cons_self a rest) (List.mem_cons_of_mem a hm) hmaA hi
                      heq.symm)
              rw [marksAgainst_eq_add _ inv a hch hnoneF hsz hin hdv]
              exact ih _ keys Hrest
            · have hstep : validateStep (inv, keys) a =
                  (inv, addConfigurationKey keys (computeConfigurationKeyName a) dv) := by
                simp [validateStep, hch, hlk, hsz, hin, hdv]
              rw [hstep]
              rw [marksAgainst_eq_inv_of_not_markable _ _ _ (by simp [markable, hdv])]
              exact ih inv _ Hrest
        · have hstep : validateStep (inv, keys) a = (inv, keys) := by
            simp [validateStep, hch, hlk, hsz]
          rw [hstep]
          rw [marksAgainst_eq_inv_of_not_markable _ _ _ (by simp [markable, hsz])]
          exact ih inv keys Hrest
      · have hstep : validateStep (inv, keys) a = (inv, keys) := by
          simp [validateStep, hch, hlk]
        rw [hstep]
        have hkF := getConfigurationKey_foldl_mono rest (inv, keys)
          (computeConfigurationKeyName a) k hlk
        rw [marksAgainst_eq_inv_of_some (List.foldl validateStep (inv, keys) rest).2 inv a k hkF]
        exact ih inv keys Hrest


/-- An instance-scoped persistent entry with a default (not flattened). -/
def mdInstanceScoped : VariableMetadata :=
  { component := "OCPPCommCtrlr", var := "RetryBackOffRepeatTimes",
    inst := some "TransactionEvent", dataType := .integer, mutability := .ReadWrite,
    persistence := .Persistent, supportedAttributes := [.Actual],
    defaultValue := some "10" }

/-- A persistent entry without a default on `ClockCtrlr`. -/
def mdFooNoDefault : VariableMetadata :=
  { component := "ClockCtrlr", var := "Foo", dataType := .integer,
    mutability := .ReadWrite, persistence := .Persistent,
    supportedAttributes := [.Actual] }

/-- A persistent entry with a default on `TxCtrlr` sharing the variable name
`Foo` (hence the configuration key name) with the no-default entry. -/
def mdFooDefault : VariableMetadata :=
  { component := "TxCtrlr", var := "Foo", dataType := .integer,
    mutability := .ReadWrite, persistence := .Persistent,
    supportedAttributes := [.Actual], defaultValue := some "1" }

/-- C2 (refuted as stated): a persistent non-write-only entry with a default
but an instance scope is NOT materialized into the store (the self-check
skips instance-scoped entries); and the self-check is NOT idempotent: with a
no-default entry followed by a with-default entry of the same key name, the
first run marks the former invalid and then inserts the key for the latter,
while the second run finds the key present and marks nothing. -/
theorem validatePersistentMappings_counterexample :
    ((validatePersistentMappings [mdInstanceScoped] {} emptyKeysStation).2.configurationKeys =
        [] ∧
      mdInstanceScoped.persistence = .Persistent ∧
      ¬ mdInstanceScoped.mutability = .WriteOnly ∧
      mdInstanceScoped.defaultValue.isSome = true) ∧
    ((validatePersistentMappings [mdFooNoDefault, mdFooDefault] {}
        emptyKeysStation).1.invalidVariables = ["clockctrlr/foo"] ∧
      (validatePersistentMappings [mdFooNoDefault, mdFooDefault]
        (validatePersistentMappings [mdFooNoDefault, mdFooDefault] {} emptyKeysStation).1
        (validatePersistentMappings [mdFooNoDefault, mdFooDefault] {}
          emptyKeysStation).2).1.invalidVariables = []) := by
  decide

/-- C2 (amended): after `validatePersistentMappings` runs, (1) every
persistent non-write-only, non-size-control, instance-free entry WITH a
default has its configuration key in the store; (2) every such entry WITHOUT
a default whose key is missing from the final store has its composite key in
`invalidVariables`; (3) the invalid set is rebuilt from empty (it does not
depend on the incoming manager state); and (4) when no no-default entry
shares its lower-cased key name with a with-default entry, running the check
twice in a row gives the same state as running it once. -/
theorem validatePersistentMappings_selfcheck (reg : Registry) (mgr : MgrState)
    (cs : ChargingStation) :
    (∀ md, md ∈ reg → insertable md = true →
      (getConfigurationKey (validatePersistentMappings reg mgr cs).2.configurationKeys
        (computeConfigurationKeyName md)).isSome = true) ∧
    (∀ md, md ∈ reg → markable md = true →
      getConfigurationKey (validatePersistentMappings reg mgr cs).2.configurationKeys
        (computeConfigurationKeyName md) = none →
      buildCaseInsensitiveCompositeKey md.component md.inst md.var ∈
        (validatePersistentMappings reg mgr cs).1.invalidVariables) ∧
    ((validatePersistentMappings reg mgr cs).1.invalidVariables =
      (List.foldl validateStep ([], cs.configurationKeys) reg).1) ∧
    ((∀ mdN mdD, mdN ∈ reg → mdD ∈ reg → markable mdN = true → insertable mdD = true →
        ¬ lowerStr (computeConfigurationKeyName mdN) =
          lowerStr (computeConfigurationKeyName mdD)) →
      validatePersistentMappings reg (validatePersistentMappings reg mgr cs).1
        (validatePersistentMappings reg mgr cs).2 =
        validatePersistentMappings reg mgr cs) := by
  refine ⟨?_, ?_, rfl, ?_⟩
  · intro md hm hi
    exact insertable_key_present reg ([], cs.configurationKeys) md hm hi
  · intro md hm hma hnone
    exact markable_marked reg ([], cs.configurationKeys) md hm hma hnone
  · intro H
    have hins : ∀ md, md ∈ reg → insertable md = true →
        (getConfigurationKey
          (List.foldl validateStep ([], cs.configurationKeys) reg).2
          (computeConfigurationKeyName md)).isSome = true :=
      fun md hm hi => insertable_key_present reg ([], cs.configurationKeys) md hm hi
    have hstable := foldl_validateStep_stable reg []
      (List.foldl validateStep ([], cs.configurationKeys) reg).2 hins
    have hfinal := foldl_validateStep_final_marks reg [] cs.configurationKeys H
    show validatePersistentMappings reg
        { mgr with invalidVariables :=
            (List.foldl validateStep ([], cs.configurationKeys) reg).1 }
        { cs with configurationKeys :=
            (List.foldl validateStep ([], cs.configurationKeys) reg).2 } =
      validatePersistentMappings reg mgr cs
    unfold validatePersistentMappings
    rw [show ({ cs with configurationKeys :=
        (List.foldl validateStep ([], cs.configurationKeys) reg).2 } :
          ChargingStation).configurationKeys =
        (List.foldl validateStep ([], cs.configurationKeys) reg).2 from rfl]
    rw [hstable, ← hfinal]

/-- C2 witness: the amended self-check theorem applied to the sample
registry (all entries have defaults): the `AuthorizeRemoteStart` key is
materialized, and a second run is a no-op. -/
theorem validatePersistentMappings_selfcheck_witness :
    (getConfigurationKey
      (validatePersistentMappings sampleRegistry {} emptyKeysStation).2.configurationKeys
      (computeConfigurationKeyName mdAuthorizeRemoteStart)).isSome = true ∧
    validatePersistentMappings sampleRegistry
      (validatePersistentMappings sampleRegistry {} emptyKeysStation).1
      (validatePersistentMappings sampleRegistry {} emptyKeysStation).2 =
      validatePersistentMappings sampleRegistry {} emptyKeysStation :=
  ⟨(validatePersistentMappings_selfcheck sampleRegistry {} emptyKeysStation).1
      mdAuthorizeRemoteStart (by simp [sampleRegistry]) (by decide),
    (validatePersistentMappings_selfcheck sampleRegistry {} emptyKeysStation).2.2.2
      (by
        intro mdN mdD h1 h2 hm hi
        simp [sampleRegistry] at h1
        rcases h1 with rfl | rfl
        · exact absurd hm (by decide)
        · exact absurd hm (by decide))⟩
